import Mathlib

/-!
Verification of the disaster-assessment pipeline in `backend/main.py`.

The image data model: a decoded raster is a row-major grid of BGR pixel
triples (the OpenCV channel order), a grayscale image is a grid of
intensities, a binary mask is a grid of booleans.  External OpenCV
algorithms (color conversion, blur, Canny, contour extraction, polygon
simplification, morphology, Sobel magnitude, histogram correlation) are
collaborators, modelled as fields of a `CV` record; every repository-level
function is translated from the Python source over that record.  Fallible
collaborator calls return `Except String`, mirroring Python exceptions.
Pixel arithmetic uses exact rationals; `uint8` wraparound is written as an
explicit `% 256` where the NumPy code performs it.
-/

namespace DisasterAssessment

/-- A BGR pixel: (blue, green, red), each a 0..255 intensity. -/
abbrev Pixel := ℕ × ℕ × ℕ

/-- A decoded color raster, row-major. -/
abbrev Img := List (List Pixel)

/-- A grayscale raster. -/
abbrev GrayImg := List (List ℕ)

/-- A binary mask. -/
abbrev Mask := List (List Bool)

/-- A pixel coordinate, as produced by contour extraction. -/
structure Pt where
  x : ℕ
  y : ℕ
deriving DecidableEq, Repr

/-- A contour: the list of its boundary points. -/
abbrev Contour := List Pt

/-- `(rows, cols)` of a raster, modelling `img.shape[:2]`. -/
def dims (img : Img) : ℕ × ℕ := (img.length, (img.headD []).length)

/-- `(rows, cols)` of a grayscale raster. -/
def grayDims (img : GrayImg) : ℕ × ℕ := (img.length, (img.headD []).length)

/-- `img[y:y+h, x:x+w]`, with Python's clamping slice semantics. -/
def crop (img : Img) (x y w h : ℕ) : Img :=
  ((img.drop y).take h).map (fun row => (row.drop x).take w)

/-- Mean of a list of rationals; the empty mean is 0. -/
def meanQ (l : List ℚ) : ℚ :=
  if l = [] then 0 else l.sum / l.length

/-- `np.mean(img)` over all three channels of a color raster. -/
def mean3 (img : Img) : ℚ :=
  meanQ ((img.flatten).map (fun p => ((p.1 : ℚ) + p.2.1 + p.2.2) / 3))

/-- `np.mean(img, axis=(0,1))`: per-channel (B, G, R) means. -/
def meanCh (img : Img) : ℚ × ℚ × ℚ :=
  (meanQ ((img.flatten).map (fun p => (p.1 : ℚ))),
   meanQ ((img.flatten).map (fun p => (p.2.1 : ℚ))),
   meanQ ((img.flatten).map (fun p => (p.2.2 : ℚ))))

/-- Mean of the blue channel (`roi[:, :, 0]` in BGR order). -/
def meanBlue (img : Img) : ℚ :=
  meanQ ((img.flatten).map (fun p => (p.1 : ℚ)))

/-- Mean of the green channel (`roi[:, :, 1]`). -/
def meanGreen (img : Img) : ℚ :=
  meanQ ((img.flatten).map (fun p => (p.2.1 : ℚ)))

/-- `|a - b|` on naturals. -/
def nabs (a b : ℕ) : ℕ := max a b - min a b

/-- `cv2.absdiff` on color rasters (exact, channel-wise). -/
def absdiffImg (a b : Img) : Img :=
  (a.zip b).map (fun rows =>
    (rows.1.zip rows.2).map (fun pq =>
      (nabs pq.1.1 pq.2.1, nabs pq.1.2.1 pq.2.2.1, nabs pq.1.2.2 pq.2.2.2)))

/-- `cv2.absdiff` on grayscale rasters. -/
def absdiffGray (a b : GrayImg) : GrayImg :=
  (a.zip b).map (fun rows => (rows.1.zip rows.2).map (fun pq => nabs pq.1 pq.2))

/-- `cv2.threshold(diff, t, 255, THRESH_BINARY)`: pixel strictly above `t`. -/
def thresholdGray (t : ℕ) (g : GrayImg) : Mask :=
  g.map (fun row => row.map (fun v => decide (t < v)))

/-- `cv2.countNonZero`. -/
def countNonZero (m : Mask) : ℕ :=
  (m.map (fun row => row.countP id)).sum

/-- Whether a mask has any set pixel. -/
def maskAny (m : Mask) : Bool :=
  m.any (fun row => row.any id)

/-- `cv2.inRange` on an HSV raster: inclusive per-channel bounds. -/
def inRange (img : Img) (lo hi : ℕ × ℕ × ℕ) : Mask :=
  img.map (fun row => row.map (fun p =>
    decide (lo.1 ≤ p.1 ∧ p.1 ≤ hi.1 ∧ lo.2.1 ≤ p.2.1 ∧ p.2.1 ≤ hi.2.1 ∧
            lo.2.2 ≤ p.2.2 ∧ p.2.2 ≤ hi.2.2)))

/-- `cv2.bitwise_and(a, cv2.bitwise_not(b))` on masks. -/
def maskAndNot (a b : Mask) : Mask :=
  (a.zip b).map (fun rows => (rows.1.zip rows.2).map (fun pq => pq.1 && !pq.2))

/-- `cv2.boundingRect`: `(x, y, w, h)` of the axis-aligned box of a contour. -/
def boundingRect : Contour → ℕ × ℕ × ℕ × ℕ
  | [] => (0, 0, 0, 0)
  | p :: ps =>
    let xs := (p :: ps).map Pt.x
    let ys := (p :: ps).map Pt.y
    let x0 := xs.foldl min p.x
    let x1 := xs.foldl max p.x
    let y0 := ys.foldl min p.y
    let y1 := ys.foldl max p.y
    (x0, y0, x1 - x0 + 1, y1 - y0 + 1)

/-- Round to `k` decimal places, modelling Python's `round(q, k)` (the
half-integer tie direction is immaterial to every statement below). -/
def roundTo (k : ℕ) (q : ℚ) : ℚ :=
  (⌊q * (10 : ℚ) ^ k + 1 / 2⌋ : ℚ) / (10 : ℚ) ^ k

/-- Render a rational with one decimal digit and a `sqm` unit, modelling the
Python f-string `f"{area_sqm:.1f} sqm"` used by the vegetation detector. -/
def fmtSqm (q : ℚ) : String :=
  let n : ℤ := ⌊q * 10 + 1 / 2⌋
  let ip := n / 10
  let fp := (n % 10).natAbs
  s!"{ip}.{fp} sqm"

/-- The stream of unit-interval samples drawn from Python's global `random`
module during one run; `sample n` is the `n`-th draw. -/
structure Rng where
  sample : ℕ → ℚ

/-- `random.uniform(a, b)` realised from the `n`-th unit sample. -/
def Rng.uniform (r : Rng) (a b : ℚ) (n : ℕ) : ℚ :=
  a + (b - a) * r.sample n

/-- `random.choice(opts)` realised from the `n`-th unit sample. -/
def Rng.choice (r : Rng) (opts : List String) (n : ℕ) : String :=
  opts.getD (Int.toNat ⌊r.sample n * opts.length⌋) ""

/-- The external OpenCV collaborators used by the pipeline.  Algorithmic
calls that can raise in Python return `Except String`; elementary total
conversions are plain functions.  `log1p` models `math.log1p` applied to
the (integer) severity counts. -/
structure CV where
  gray : Img → GrayImg
  blur : GrayImg → GrayImg
  dilate2 : Mask → Except String Mask
  canny : GrayImg → Except String Mask
  findContours : Mask → Except String (List Contour)
  contourArea : Contour → ℚ
  approxVertices : Contour → ℕ
  hsv : Img → Except String Img
  morphOpen : Mask → Except String Mask
  morphClose : Mask → Except String Mask
  sobelMag : GrayImg → Except String (List (List ℚ))
  histCorrel : Img → Img → Except String ℚ
  resize : Img → ℕ × ℕ → Img
  log1p : ℕ → ℚ

/-! ## Region records

One record type per collection, mirroring the Python dict shapes.  Fields
attached only at `analysis_level == "detailed"` are `Option`s. -/

/-- A generic damaged area produced by `analyze_damaged_areas`. -/
structure DamagedArea where
  id : ℕ
  coordinates : List ℕ
  area : ℚ
  severity : String
  type : String
  confidence : ℚ
  estimated_recovery : Option String := none
deriving DecidableEq, Repr

/-- A building damage record produced by `detect_building_damage`. -/
structure BuildingInfo where
  id : ℕ
  coordinates : List ℕ
  severity : String
  confidence : ℚ
  type : Option String := none
  safety : Option String := none
deriving DecidableEq, Repr

/-- A road damage record produced by `detect_road_damage`. -/
structure RoadInfo where
  id : ℕ
  coordinates : List ℕ
  severity : String
  confidence : ℚ
  length : Option ℚ := none
  passability : Option String := none
deriving DecidableEq, Repr

/-- A flooded-area record produced by `detect_flooded_areas`. -/
structure FloodInfo where
  id : ℕ
  coordinates : List ℕ
  water_depth : String
  area : ℚ
  confidence : ℚ
  area_sqm : Option ℚ := none
  flow_direction : Option String := none
  flood_timeline : Option String := none
deriving DecidableEq, Repr

/-- A vegetation-loss record produced by `detect_vegetation_loss`.  Note
that its `area` field is the *string* `f"{area_sqm:.1f} sqm"`. -/
structure VegInfo where
  id : ℕ
  coordinates : List ℕ
  area : String
  confidence : ℚ
  density : Option String := none
  vegetation_type : Option String := none
  ecological_impact : Option String := none
deriving DecidableEq, Repr

/-! ## Scalar heuristics translated from the source -/

/-- `calculate_damage_severity`: tier the mean absolute pixel difference of
the two crops. -/
def calculate_damage_severity (before_roi after_roi : Img) : String :=
  let mean_diff := mean3 (absdiffImg before_roi after_roi)
  if mean_diff > 100 then "Critical"
  else if mean_diff > 70 then "High"
  else if mean_diff > 40 then "Medium"
  else "Low"

/-- Mean absolute difference of two rational grids (Sobel magnitudes). -/
def meanAbsDiffQ (a b : List (List ℚ)) : ℚ :=
  meanQ (((a.flatten).zip (b.flatten)).map (fun pq => |pq.2 - pq.1|))

/-- `calculate_texture_difference`: mean absolute difference of the Sobel
gradient magnitudes of the grayscale crops. -/
def calculate_texture_difference (cv : CV) (before_roi after_roi : Img) :
    Except String ℚ := do
  let before_gray := cv.gray before_roi
  let after_gray := cv.gray after_roi
  let before_sobel ← cv.sobelMag before_gray
  let after_sobel ← cv.sobelMag after_gray
  pure (meanAbsDiffQ before_sobel after_sobel)

/-- The decision cascade at the end of `classify_damage_type`, written over
the derived scalars exactly as the Python `if/elif` chain. -/
def classify_cascade (disaster_type : Option String)
    (correlation blue_increase green_decrease red_increase texture_diff : ℚ) :
    String :=
  if disaster_type = some "flood" ∨ blue_increase > 30 then "Flooding"
  else if disaster_type = some "fire" ∨ red_increase > 30 then "Fire Damage"
  else if disaster_type = some "earthquake" ∧ texture_diff > 50 then "Building Collapse"
  else if texture_diff > 50 ∧ correlation < 0.5 then "Structural Damage"
  else if green_decrease > 20 then "Vegetation Loss"
  else if correlation < 0.3 then "Severe Damage"
  else if correlation < 0.7 then "Surface Damage"
  else "Minor Change"

/-- `classify_damage_type`: derive histogram correlation, per-channel mean
shifts and the texture metric, then run the cascade. -/
def classify_damage_type (cv : CV) (before_roi after_roi : Img)
    (disaster_type : Option String) : Except String String := do
  let before_hsv ← cv.hsv before_roi
  let after_hsv ← cv.hsv after_roi
  let correlation ← cv.histCorrel before_hsv after_hsv
  let before_mean := meanCh before_roi
  let after_mean := meanCh after_roi
  let blue_increase := after_mean.1 - before_mean.1
  let green_decrease := before_mean.2.1 - after_mean.2.1
  let red_increase := after_mean.2.2 - before_mean.2.2
  let texture_diff ← calculate_texture_difference cv before_roi after_roi
  pure (classify_cascade disaster_type correlation blue_increase green_decrease
    red_increase texture_diff)

/-- One entry of NumPy's `(before_gray - after_gray) ** 2` on `uint8`
arrays: both the subtraction and the squaring wrap modulo 256. -/
def wrapSqDiff (b a : ℕ) : ℕ :=
  (((((b : ℤ) - a) % 256).toNat) ^ 2) % 256

/-- `calculate_building_damage_severity`: `np.mean((before_gray -
after_gray) ** 2)` over `uint8` grayscale crops — the arithmetic wraps
modulo 256 — then the >3000/>2000/>1000 tiers. -/
def calculate_building_damage_severity (cv : CV) (before_roi after_roi : Img) :
    String :=
  let before_gray := cv.gray before_roi
  let after_gray := cv.gray after_roi
  let mse := meanQ (((before_gray.flatten).zip (after_gray.flatten)).map
    (fun pq => (wrapSqDiff pq.1 pq.2 : ℚ)))
  if mse > 3000 then "Collapsed"
  else if mse > 2000 then "Severely Damaged"
  else if mse > 1000 then "Partially Damaged"
  else "Minor Damage"

/-- Following the spec's words: the building severity tier of the
mean-squared pixel error computed in exact arithmetic. -/
def spec_building_damage_severity (cv : CV) (before_roi after_roi : Img) :
    String :=
  let before_gray := cv.gray before_roi
  let after_gray := cv.gray after_roi
  let mse := meanQ (((before_gray.flatten).zip (after_gray.flatten)).map
    (fun pq => (((pq.1 : ℚ) - pq.2) ^ 2)))
  if mse > 3000 then "Collapsed"
  else if mse > 2000 then "Severely Damaged"
  else if mse > 1000 then "Partially Damaged"
  else "Minor Damage"

/-- `calculate_road_damage_severity`: tier the texture difference. -/
def calculate_road_damage_severity (cv : CV) (before_roi after_roi : Img) :
    Except String String := do
  let texture_diff ← calculate_texture_difference cv before_roi after_roi
  pure (if texture_diff > 60 then "Severe"
        else if texture_diff > 40 then "Moderate"
        else "Minor")

/-- `estimate_water_depth`: band the mean blue intensity of the after-crop. -/
def estimate_water_depth (water_roi : Img) : String :=
  let mean_blue := meanBlue water_roi
  if mean_blue > 180 then "0.5-1.0m"
  else if mean_blue > 150 then "1.0-2.0m"
  else if mean_blue > 120 then "2.0-3.0m"
  else ">3.0m"

/-! ## Severity scorer -/

/-- The `severity_weights` table, in source (dict insertion) order. -/
def severity_weights : List (String × ℚ) :=
  [("Critical", 10), ("Collapsed", 10), ("Severe", 8), ("Severely Damaged", 8),
   ("High", 6), ("Moderate", 4), ("Partially Damaged", 4), ("Medium", 3),
   ("Low", 1), ("Minor", 1), ("Minor Damage", 1), ("Minor Change", 0.5)]

/-- The severity labels (the keys of `severity_weights`). -/
def sevKeys : List String := severity_weights.map Prod.fst

/-- Weight of a severity label (0 off the table). -/
def weightOf (s : String) : ℚ := (severity_weights.lookup s).getD 0

/-- One step of the `severity_counts` accumulation: bump the counter of an
observed severity if it is a key of the table. -/
def bumpCount (counts : String → ℕ) (s : String) : String → ℕ :=
  if sevKeys.contains s then
    (fun k => if k = s then counts k + 1 else counts k)
  else counts

/-- The `severity_counts` dict after the three counting loops. -/
def tally (sevs : List String) : String → ℕ :=
  sevs.foldl bumpCount (fun _ => 0)

/-- `calculate_severity_score`, translated from the source: base term from
the change percentage, log-dampened severity-count terms over the generic,
building and road collections (the three source loops fused into one pass
over the concatenated severity lists), capped flood and vegetation factors,
then clamp to `[0,10]` and round to one decimal. -/
def calculate_severity_score (log1p : ℕ → ℚ) (changed_percentage : ℚ)
    (damaged_areas : List DamagedArea) (building_damage : List BuildingInfo)
    (road_damage : List RoadInfo) (flooded_areas : List FloodInfo)
    (vegetation_loss : List VegInfo) : ℚ :=
  let base_score := min (changed_percentage * 0.1) 10
  let sevs := damaged_areas.map (fun a => a.severity)
      ++ building_damage.map (fun b => b.severity)
      ++ road_damage.map (fun r => r.severity)
  let counts := tally sevs
  let severity_score := sevKeys.foldl
    (fun acc s => if 0 < counts s then acc + weightOf s * log1p (counts s) else acc) 0
  let flood_factor := min ((flooded_areas.length : ℚ) * 2) 10
  let vegetation_factor := min ((vegetation_loss.length : ℚ) * 0.5) 5
  let total_score := base_score + severity_score + flood_factor + vegetation_factor
  roundTo 1 (min (max (total_score / 10) 0) 10)

/-- Following the spec's words: `round(clamp((min(changedPct*0.1, 10) +
Σ_labels weight(label)*log1p(count(label)) + min(flood*2, 10) +
min(veg*0.5, 5)) / 10, 0, 10), 1)` where `count(label)` counts the label
across the generic, building and road collections. -/
def spec_severity_score (log1p : ℕ → ℚ) (changed_percentage : ℚ)
    (damaged_areas : List DamagedArea) (building_damage : List BuildingInfo)
    (road_damage : List RoadInfo) (flooded_areas : List FloodInfo)
    (vegetation_loss : List VegInfo) : ℚ :=
  let sevs := damaged_areas.map (fun a => a.severity)
      ++ building_damage.map (fun b => b.severity)
      ++ road_damage.map (fun r => r.severity)
  let total := min (changed_percentage * 0.1) 10
      + (sevKeys.map (fun s => weightOf s * log1p (sevs.count s))).sum
      + min ((flooded_areas.length : ℚ) * 2) 10
      + min ((vegetation_loss.length : ℚ) * 0.5) 5
  roundTo 1 (min (max (total / 10) 0) 10)

/-! ## Detectors -/

/-- The axis-aligned overlap test used by the building and road detectors:
`x < dx + dw and x + w > dx and y < dy + dh and y + h > dy`. -/
def bboxOverlapB (x y w h dx dy dw dh : ℕ) : Bool :=
  decide (x < dx + dw ∧ dx < x + w ∧ y < dy + dh ∧ dy < y + h)

/-- Loop body of `analyze_damaged_areas`: contours below 100 px² are
dropped; each kept contour yields one record with the contour's `enumerate`
index, bbox, area, tiered severity, cascade type and an area-monotone
confidence. -/
def analyze_loop (cv : CV) (before_img after_img : Img)
    (disaster_type : Option String) (contours : List Contour) :
    Except String (List DamagedArea) :=
  contours.enum.foldlM
    (fun acc ic => do
      let i := ic.1
      let contour := ic.2
      let area := cv.contourArea contour
      if area < 100 then
        pure acc
      else do
        let (x, y, w, h) := boundingRect contour
        let before_roi := crop before_img x y w h
        let after_roi := crop after_img x y w h
        let severity := calculate_damage_severity before_roi after_roi
        let damage_type ← classify_damage_type cv before_roi after_roi disaster_type
        pure (acc ++ [{ id := i + 1, coordinates := [x, y, x + w, y + h],
                        area := area, severity := severity, type := damage_type,
                        confidence := roundTo 2 (min (0.9 + area / 10000) 0.99) }]))
    []

/-- The detailed-level post-pass of `analyze_damaged_areas`: attach an
estimated recovery time derived from the severity tier. -/
def addRecovery (a : DamagedArea) : DamagedArea :=
  let recovery :=
    if a.severity = "Critical" then "6+ months"
    else if a.severity = "High" then "3-6 months"
    else if a.severity = "Medium" then "1-3 months"
    else "<1 month"
  { a with estimated_recovery := some recovery }

/-- `analyze_damaged_areas`: the detection loop, then (at `detailed` only)
the metadata post-pass. -/
def analyze_damaged_areas (cv : CV) (contours : List Contour)
    (before_img after_img : Img) (disaster_type : Option String)
    (analysis_level : String) : Except String (List DamagedArea) := do
  let damaged_areas ← analyze_loop cv before_img after_img disaster_type contours
  pure (if analysis_level = "detailed" then damaged_areas.map addRecovery
        else damaged_areas)

/-- Per-candidate body of `detect_building_damage`: keep contours of area
at least 500 that simplify to 4–8 vertices and whose bbox overlaps some
damage contour; the first overlapping damage contour wins (the `break`),
producing at most one record per candidate.  The second accumulator
component is the position in the random stream. -/
def building_step (cv : CV) (before_img after_img : Img)
    (contours : List Contour) (analysis_level : String) (rng : Rng) :
    List BuildingInfo × ℕ → ℕ × Contour → List BuildingInfo × ℕ :=
  fun acc ic =>
    let i := ic.1
    let contour := ic.2
    if cv.contourArea contour < 500 then acc
    else if 4 ≤ cv.approxVertices contour ∧ cv.approxVertices contour ≤ 8 then
      let (x, y, w, h) := boundingRect contour
      if contours.any (fun dc =>
          let (dx, dy, dw, dh) := boundingRect dc
          bboxOverlapB x y w h dx dy dw dh) then
        let before_roi := crop before_img x y w h
        let after_roi := crop after_img x y w h
        let severity := calculate_building_damage_severity cv before_roi after_roi
        let base : BuildingInfo :=
          { id := i + 1, coordinates := [x, y, x + w, y + h], severity := severity,
            confidence := roundTo 2 (rng.uniform 0.75 0.95 acc.2) }
        let info :=
          if analysis_level = "detailed" then
            { base with
              type := some (if severity = "Collapsed" then "Complete Structural Failure"
                            else if severity = "Severely Damaged" then "Major Structural Damage"
                            else if severity = "Partially Damaged" then "Exterior Damage"
                            else "Superficial Damage"),
              safety := some (if severity = "Collapsed" ∨ severity = "Severely Damaged" then
                                "Unsafe - No Entry"
                              else if severity = "Partially Damaged" then "Restricted Entry"
                              else "Inspection Needed") }
          else base
        (acc.1 ++ [info], acc.2 + 1)
      else acc
    else acc

/-- `detect_building_damage`: Canny on both grayscales (the after edges are
computed but unused by the source), contours of the before edges as
building candidates, then the per-candidate pass. -/
def detect_building_damage (cv : CV) (before_img after_img : Img)
    (contours : List Contour) (analysis_level : String) (rng : Rng) (n : ℕ) :
    Except String (List BuildingInfo × ℕ) := do
  let before_gray := cv.gray before_img
  let after_gray := cv.gray after_img
  let before_edges ← cv.canny before_gray
  let _after_edges ← cv.canny after_gray
  let building_contours ← cv.findContours before_edges
  pure (building_contours.enum.foldl
    (building_step cv before_img after_img contours analysis_level rng) ([], n))

/-- Inner loop of `detect_road_damage` over the damage contours: every
overlap of the road bbox with a damage bbox yields a record classified on
the intersection rectangle (no `break`: a road can have several damaged
segments). -/
def road_inner (cv : CV) (before_img after_img : Img) (analysis_level : String)
    (rng : Rng) (i rx ry rw rh : ℕ) :
    List RoadInfo × ℕ → Contour → Except String (List RoadInfo × ℕ) :=
  fun acc dc => do
    let (dx, dy, dw, dh) := boundingRect dc
    if bboxOverlapB rx ry rw rh dx dy dw dh then
      let ox := max rx dx
      let oy := max ry dy
      let ow : ℤ := (min (rx + rw) (dx + dw) : ℤ) - ox
      let oh : ℤ := (min (ry + rh) (dy + dh) : ℤ) - oy
      if ow ≤ 0 ∨ oh ≤ 0 then pure acc
      else do
        let before_overlap := crop before_img ox oy ow.toNat oh.toNat
        let after_overlap := crop after_img ox oy ow.toNat oh.toNat
        let severity ← calculate_road_damage_severity cv before_overlap after_overlap
        let base : RoadInfo :=
          { id := i + 1, coordinates := [ox, oy, ox + ow.toNat, oy + oh.toNat],
            severity := severity,
            confidence := roundTo 2 (rng.uniform 0.8 0.95 acc.2) }
        let info :=
          if analysis_level = "detailed" then
            { base with
              length := some (roundTo 1 (((max ow oh).toNat : ℚ) * 0.5)),
              passability := some (if severity = "Severe" then "Impassable"
                                   else if severity = "Moderate" then "Difficult Passage"
                                   else "Passable with Caution") }
          else base
        pure (acc.1 ++ [info], acc.2 + 1)
    else pure acc

/-- Outer loop body of `detect_road_damage`: road contours below 1000 px²
are dropped; the rest are intersected with every damage contour. -/
def road_step (cv : CV) (before_img after_img : Img) (contours : List Contour)
    (analysis_level : String) (rng : Rng) :
    List RoadInfo × ℕ → ℕ × Contour → Except String (List RoadInfo × ℕ) :=
  fun acc ic => do
    let i := ic.1
    let rc := ic.2
    if cv.contourArea rc < 1000 then pure acc
    else
      let (rx, ry, rw, rh) := boundingRect rc
      contours.foldlM (road_inner cv before_img after_img analysis_level rng i rx ry rw rh) acc

/-- `detect_road_damage`: HSV range filter for road-gray pixels, open/close
cleanup, contours, then the overlap pass. -/
def detect_road_damage (cv : CV) (before_img after_img : Img)
    (contours : List Contour) (analysis_level : String) (rng : Rng) (n : ℕ) :
    Except String (List RoadInfo × ℕ) := do
  let before_hsv ← cv.hsv before_img
  let road_mask := inRange before_hsv (0, 0, 70) (180, 30, 220)
  let road_mask ← cv.morphOpen road_mask
  let road_mask ← cv.morphClose road_mask
  let road_contours ← cv.findContours road_mask
  road_contours.enum.foldlM
    (road_step cv before_img after_img contours analysis_level rng) ([], n)

/-- Per-contour body of `detect_flooded_areas`: contours below 500 px² are
dropped; each kept contour yields a record with a water-depth band from the
after-crop and, at `detailed`, a rounded square-meter area plus randomly
drawn flow direction and timeline (three stream draws instead of one). -/
def flood_step (cv : CV) (after_img : Img) (analysis_level : String) (rng : Rng) :
    List FloodInfo × ℕ → ℕ × Contour → List FloodInfo × ℕ :=
  fun acc ic =>
    let i := ic.1
    let contour := ic.2
    if cv.contourArea contour < 500 then acc
    else
      let (x, y, w, h) := boundingRect contour
      let area := cv.contourArea contour
      let after_roi := crop after_img x y w h
      let water_depth := estimate_water_depth after_roi
      let base : FloodInfo :=
        { id := i + 1, coordinates := [x, y, x + w, y + h],
          water_depth := water_depth, area := area,
          confidence := roundTo 2 (rng.uniform 0.85 0.98 acc.2) }
      if analysis_level = "detailed" then
        let info :=
          { base with
            area_sqm := some (roundTo 1 (area * 0.25)),
            flow_direction := some (rng.choice ["North", "South", "East", "West"] (acc.2 + 1)),
            flood_timeline := some (rng.choice ["Recent (< 24h)", "1-3 days", "> 3 days"] (acc.2 + 2)) }
        (acc.1 ++ [info], acc.2 + 3)
      else (acc.1 ++ [base], acc.2 + 1)

/-- `detect_flooded_areas`: water = blue-HSV range; flooding = water after
but not before, cleaned by open/close, then the per-contour pass. -/
def detect_flooded_areas (cv : CV) (before_img after_img : Img)
    (analysis_level : String) (rng : Rng) (n : ℕ) :
    Except String (List FloodInfo × ℕ) := do
  let before_hsv ← cv.hsv before_img
  let after_hsv ← cv.hsv after_img
  let before_water := inRange before_hsv (90, 50, 50) (130, 255, 255)
  let after_water := inRange after_hsv (90, 50, 50) (130, 255, 255)
  let new_water := maskAndNot after_water before_water
  let new_water ← cv.morphOpen new_water
  let new_water ← cv.morphClose new_water
  let flood_contours ← cv.findContours new_water
  pure (flood_contours.enum.foldl (flood_step cv after_img analysis_level rng) ([], n))

/-- Per-contour body of `detect_vegetation_loss`: contours below 500 px²
are dropped; the area field is the formatted square-meter string; at
`detailed` a density band, a randomly drawn vegetation type (one extra
stream draw) and an ecological impact are attached. -/
def veg_step (cv : CV) (before_img : Img) (analysis_level : String) (rng : Rng) :
    List VegInfo × ℕ → ℕ × Contour → List VegInfo × ℕ :=
  fun acc ic =>
    let i := ic.1
    let contour := ic.2
    if cv.contourArea contour < 500 then acc
    else
      let (x, y, w, h) := boundingRect contour
      let area := cv.contourArea contour
      let area_sqm := area * 0.25
      let base : VegInfo :=
        { id := i + 1, coordinates := [x, y, x + w, y + h],
          area := fmtSqm area_sqm,
          confidence := roundTo 2 (rng.uniform 0.8 0.95 acc.2) }
      if analysis_level = "detailed" then
        let before_roi := crop before_img x y w h
        let mean_green := meanGreen before_roi
        let info :=
          { base with
            density := some (if mean_green > 150 then "Dense"
                             else if mean_green > 100 then "Moderate" else "Sparse"),
            vegetation_type := some (rng.choice ["Forest", "Cropland", "Grassland", "Shrubland"] (acc.2 + 1)),
            ecological_impact := some (if area_sqm > 10000 then "Severe"
                                       else if area_sqm > 5000 then "Moderate" else "Low") }
        (acc.1 ++ [info], acc.2 + 2)
      else (acc.1 ++ [base], acc.2 + 1)

/-- `detect_vegetation_loss`: mirror of the flood detector over the green
HSV range; loss = vegetation before but not after. -/
def detect_vegetation_loss (cv : CV) (before_img after_img : Img)
    (analysis_level : String) (rng : Rng) (n : ℕ) :
    Except String (List VegInfo × ℕ) := do
  let before_hsv ← cv.hsv before_img
  let after_hsv ← cv.hsv after_img
  let before_veg := inRange before_hsv (30, 40, 40) (90, 255, 255)
  let after_veg := inRange after_hsv (30, 40, 40) (90, 255, 255)
  let lost_vegetation := maskAndNot before_veg after_veg
  let lost_vegetation ← cv.morphOpen lost_vegetation
  let lost_vegetation ← cv.morphClose lost_vegetation
  let veg_contours ← cv.findContours lost_vegetation
  pure (veg_contours.enum.foldl (veg_step cv before_img analysis_level rng) ([], n))

/-! ## Overview aggregator and result assembly -/

/-- Counting dict in insertion order, as Python builds `damage_types`. -/
def bumpAssoc (l : List (String × ℕ)) (key : String) : List (String × ℕ) :=
  if l.any (fun p => p.1 = key) then
    l.map (fun p => if p.1 = key then (p.1, p.2 + 1) else p)
  else l ++ [(key, 1)]

/-- The per-category building summary of `create_damage_overview`. -/
structure BuildingSummary where
  total : ℕ
  collapsed : ℕ
  severe : ℕ
  partialDamage : ℕ
  minor : ℕ
deriving DecidableEq, Repr

/-- The per-category road summary of `create_damage_overview`. -/
structure RoadSummary where
  total : ℕ
  severe : ℕ
  moderate : ℕ
  minor : ℕ
deriving DecidableEq, Repr

/-- The damage overview dict. -/
structure DamageOverview where
  total_damaged_areas : ℕ
  damage_types : List (String × ℕ)
  severity_distribution : List (String × ℕ)
  building_damage : BuildingSummary
  road_damage : RoadSummary
  flooded_areas : ℕ
  vegetation_loss : ℕ
deriving DecidableEq, Repr

/-- `create_damage_overview`: pure reduction into kind counts, the 4-bucket
severity distribution, and per-category breakdowns. -/
def create_damage_overview (damaged_areas : List DamagedArea)
    (building_damage : List BuildingInfo) (road_damage : List RoadInfo)
    (flooded_areas : List FloodInfo) (vegetation_loss : List VegInfo) :
    DamageOverview :=
  let damage_types := damaged_areas.foldl (fun l a => bumpAssoc l a.type) []
  let severity_distribution :=
    ["Critical", "High", "Medium", "Low"].map
      (fun s => (s, damaged_areas.countP (fun a => a.severity = s)))
  { total_damaged_areas := damaged_areas.length
    damage_types := damage_types
    severity_distribution := severity_distribution
    building_damage :=
      { total := building_damage.length
        collapsed := building_damage.countP (fun b => b.severity = "Collapsed")
        severe := building_damage.countP (fun b => b.severity = "Severely Damaged")
        partialDamage := building_damage.countP (fun b => b.severity = "Partially Damaged")
        minor := building_damage.countP (fun b => b.severity = "Minor Damage") }
    road_damage :=
      { total := road_damage.length
        severe := road_damage.countP (fun r => r.severity = "Severe")
        moderate := road_damage.countP (fun r => r.severity = "Moderate")
        minor := road_damage.countP (fun r => r.severity = "Minor") }
    flooded_areas := flooded_areas.length
    vegetation_loss := vegetation_loss.length }

/-- The `raw_data` block attached when `include_raw_data` is requested. -/
structure RawData where
  image_dimensions : ℕ × ℕ
  changed_pixels : ℕ
  total_pixels : ℕ
  contour_count : ℕ
deriving DecidableEq, Repr

/-- The durable `AnalysisResult`.  The wall-clock `created_at` timestamp is
not modelled (it is an opaque string in the source). -/
structure AnalysisResult where
  comparison_id : String
  before_image_url : String
  after_image_url : String
  difference_image_url : String
  changed_pixels_percentage : ℚ
  severity_score : ℚ
  damage_overview : DamageOverview
  damaged_areas : List DamagedArea
  building_damage : List BuildingInfo
  road_damage : List RoadInfo
  flooded_areas : List FloodInfo
  vegetation_loss : List VegInfo
  analysis_level : String
  region : Option String
  disaster_type : Option String
  raw_data : Option RawData
deriving DecidableEq, Repr

/-- `compare_images`: grayscale + blur, absolute difference, threshold at
30, dilation, contour extraction, change percentage, then the generic pass
always and — except at `basic` — the four specialized detectors sharing
the run's random stream, finishing with score, overview and assembly. -/
def main_contours (cv : CV) (before_img after_img : Img) :
    Except String (List Contour) := do
  let before_gray := cv.blur (cv.gray before_img)
  let after_gray := cv.blur (cv.gray after_img)
  let diff := absdiffGray before_gray after_gray
  let thresh := thresholdGray 30 diff
  let dilated ← cv.dilate2 thresh
  cv.findContours dilated

/-- The threshold mask of `compare_images`, from which the change
percentage is counted (before dilation). -/
def change_mask (cv : CV) (before_img after_img : Img) : Mask :=
  thresholdGray 30 (absdiffGray (cv.blur (cv.gray before_img))
    (cv.blur (cv.gray after_img)))

/-- `changed_pixels / total_pixels * 100` of `compare_images`. -/
def changed_percentage_of (cv : CV) (before_img after_img : Img) : ℚ :=
  let before_gray := cv.blur (cv.gray before_img)
  let total_pixels := (grayDims before_gray).1 * (grayDims before_gray).2
  let changed_pixels := countNonZero (change_mask cv before_img after_img)
  (changed_pixels : ℚ) / (total_pixels : ℚ) * 100

/-- The level gate of `compare_images`: at `basic` the four specialized
collections are the empty lists; otherwise the four detectors run in
source order, threading the run's random stream. -/
def run_detectors (cv : CV) (rng : Rng) (before_img after_img : Img)
    (contours : List Contour) (analysis_level : String) :
    Except String (List BuildingInfo × List RoadInfo × List FloodInfo × List VegInfo) :=
  if analysis_level = "basic" then
    pure (([] : List BuildingInfo), ([] : List RoadInfo),
          ([] : List FloodInfo), ([] : List VegInfo))
  else do
    let (building_damage, n1) ← detect_building_damage cv before_img after_img
      contours analysis_level rng 0
    let (road_damage, n2) ← detect_road_damage cv before_img after_img
      contours analysis_level rng n1
    let (flooded_areas, n3) ← detect_flooded_areas cv before_img after_img
      analysis_level rng n2
    let (vegetation_loss, _n4) ← detect_vegetation_loss cv before_img after_img
      analysis_level rng n3
    pure (building_damage, road_damage, flooded_areas, vegetation_loss)

def compare_images (cv : CV) (rng : Rng) (before_img after_img : Img)
    (comparison_id : String) (disaster_type region : Option String)
    (analysis_level : String) (include_raw_data : Bool) :
    Except String AnalysisResult := do
  let contours ← main_contours cv before_img after_img
  let total_pixels :=
    (grayDims (cv.blur (cv.gray before_img))).1 * (grayDims (cv.blur (cv.gray before_img))).2
  let changed_pixels := countNonZero (change_mask cv before_img after_img)
  let changed_percentage := changed_percentage_of cv before_img after_img
  let damaged_areas ← analyze_damaged_areas cv contours before_img after_img
    disaster_type analysis_level
  let (building_damage, road_damage, flooded_areas, vegetation_loss) ←
    run_detectors cv rng before_img after_img contours analysis_level
  let severity_score := calculate_severity_score cv.log1p changed_percentage
    damaged_areas building_damage road_damage flooded_areas vegetation_loss
  let damage_overview := create_damage_overview damaged_areas building_damage
    road_damage flooded_areas vegetation_loss
  let raw_data :=
    if include_raw_data then
      some { image_dimensions := dims before_img, changed_pixels := changed_pixels,
             total_pixels := total_pixels, contour_count := contours.length }
    else none
  pure
    { comparison_id := comparison_id
      before_image_url := "/api/results/" ++ comparison_id ++ "_before.jpg"
      after_image_url := "/api/results/" ++ comparison_id ++ "_after.jpg"
      difference_image_url := "/api/results/" ++ comparison_id ++ "_diff.jpg"
      changed_pixels_percentage := roundTo 2 changed_percentage
      severity_score := severity_score
      damage_overview := damage_overview
      damaged_areas := damaged_areas
      building_damage := building_damage
      road_damage := road_damage
      flooded_areas := flooded_areas
      vegetation_loss := vegetation_loss
      analysis_level := analysis_level
      region := region
      disaster_type := disaster_type
      raw_data := raw_data }

/-! ## Job registry -/

/-- An `AnalysisProgress` entry as stored in the `analysis_jobs` dict. -/
structure AnalysisJob where
  comparison_id : String
  status : String
  progress : ℚ
  message : Option String
  created_at : String
  updated_at : String
deriving DecidableEq, Repr

/-- The in-memory job registry `analysis_jobs`. -/
abbrev Registry := String → Option AnalysisJob

/-- `update_job_status`: if the id is registered, overwrite exactly the
status, progress, message and `updated_at` fields; otherwise do nothing. -/
def update_job_status (jobs : Registry) (comparison_id status : String)
    (progress : ℚ) (message : Option String) (now : String) : Registry :=
  match jobs comparison_id with
  | some j => fun k =>
      if k = comparison_id then
        some { j with status := status, progress := progress,
                      message := message, updated_at := now }
      else jobs k
  | none => jobs

/-- Registration of a fresh job in the async branch of `analyze_images`:
status `queued`, progress 0. -/
def create_job (jobs : Registry) (comparison_id now : String) : Registry :=
  fun k =>
    if k = comparison_id then
      some { comparison_id := comparison_id, status := "queued", progress := 0,
             message := none, created_at := now, updated_at := now }
    else jobs k

/-- The durable result store (`RESULTS_DIR`), keyed by comparison id. -/
abbrev ResultStore := String → Option AnalysisResult

/-- The shared orchestrator state: job registry plus result store. -/
structure OrchState where
  jobs : Registry
  store : ResultStore

/-- One observable effect of `process_analysis_job`: a registry update or a
result persistence. -/
inductive JobEvent
  | upd (status : String) (progress : ℚ) (message : String)
  | save (result : AnalysisResult)
deriving DecidableEq

/-- The progress of a registry-update event (saves carry none). -/
def JobEvent.progressOf : JobEvent → Option ℚ
  | .upd _ p _ => some p
  | .save _ => none

/-- The fixed checkpoint updates issued by `compare_images_with_progress`
before it delegates to `compare_images`. -/
def progress_checkpoint_events : List JobEvent :=
  [.upd "processing" 30 "Preprocessing images...",
   .upd "processing" 40 "Comparing images...",
   .upd "processing" 50 "Detecting general damage...",
   .upd "processing" 60 "Analyzing building damage...",
   .upd "processing" 70 "Analyzing road damage...",
   .upd "processing" 80 "Detecting flooded areas...",
   .upd "processing" 90 "Analyzing vegetation loss...",
   .upd "processing" 95 "Finalizing results..."]

/-- The sequence of effects of one `process_analysis_job` run.  `read`
models `cv2.imread` (`none` on an unreadable file, surfacing as an
exception at the `.shape` access after the first three updates);
`persistOk` models whether writing the result file succeeds.  Any caught
exception ends the run with the `failed` update at progress 0, exactly as
the source's `except` clause does. -/
def process_events (cv : CV) (rng : Rng) (read : String → Option Img)
    (persistOk : Bool) (comparison_id before_path after_path : String)
    (disaster_type region : Option String) (analysis_level : String)
    (include_raw_data : Bool) : List JobEvent :=
  [.upd "processing" 5 "Starting analysis...",
   .upd "processing" 10 "Reading before image...",
   .upd "processing" 15 "Reading after image..."] ++
  match read before_path, read after_path with
  | some before_img, some after_img =>
    let resize_events : List JobEvent :=
      if dims before_img = dims after_img then []
      else [.upd "processing" 20 "Resizing images..."]
    let after_img2 :=
      if dims before_img = dims after_img then after_img
      else cv.resize after_img ((dims before_img).2, (dims before_img).1)
    resize_events ++
    (JobEvent.upd "processing" 25 "Starting comparison..." ::
     progress_checkpoint_events) ++
    (match compare_images cv rng before_img after_img2 comparison_id
        disaster_type region analysis_level include_raw_data with
     | .ok result =>
        JobEvent.upd "completed" 100 "Analysis completed successfully" ::
        (if persistOk then [.save result]
         else [.upd "failed" 0 "Analysis failed: persistence error"])
     | .error e => [.upd "failed" 0 ("Analysis failed: " ++ e)])
  | _, _ => [.upd "failed" 0 "Analysis failed: could not read images"]

/-- Apply one effect to the orchestrator state. -/
def applyEvent (comparison_id now : String) (st : OrchState) :
    JobEvent → OrchState
  | .upd status progress message =>
      let jobs2 := update_job_status st.jobs comparison_id status progress
        (some message) now
      { st with jobs := jobs2 }
  | .save result =>
      let store2 : ResultStore := fun k =>
        if k = comparison_id then some result else st.store k
      { st with store := store2 }

/-- The final orchestrator state after a run. -/
def runEvents (comparison_id now : String) (st : OrchState)
    (events : List JobEvent) : OrchState :=
  events.foldl (applyEvent comparison_id now) st

/-- Every intermediate orchestrator state of a run, initial state first. -/
def traceStates (comparison_id now : String) (st : OrchState) :
    List JobEvent → List OrchState
  | [] => [st]
  | e :: es => st :: traceStates comparison_id now (applyEvent comparison_id now st e) es

/-- Outcomes of `GET /api/analysis-result/{id}`. -/
inductive ResultResponse
  | ok (r : AnalysisResult)
  | failedJob
  | stillRunning (status : String)
  | notFound
deriving DecidableEq

/-- `get_analysis_result`: a stored result is returned only when the job is
registered with status `completed`; a completed job whose file is missing
falls through to the 202 branch of the source, as does any non-failed
status; `failed` yields the 500 branch; an unknown id the 404 branch. -/
def get_analysis_result (st : OrchState) (comparison_id : String) :
    ResultResponse :=
  match st.jobs comparison_id with
  | some j =>
    if j.status = "completed" then
      match st.store comparison_id with
      | some r => .ok r
      | none => .stillRunning j.status
    else if j.status = "failed" then .failedJob
    else .stillRunning j.status
  | none => .notFound

/-! ## Concrete collaborator instances for closed evaluations -/

/-- A trivial total OpenCV instance: grayscale/HSV are read off the pixel
grids directly, morphology is the identity, contour extraction returns one
fixed two-point contour on any non-empty mask, every contour has area
1000 px², and `log1p` is the zero function.  Any instance is admissible for
the collaborators; this one keeps closed evaluations small. -/
def cvT : CV where
  gray := fun img => img.map (fun row => row.map (fun p => p.1))
  blur := id
  dilate2 := fun m => .ok m
  canny := fun _ => .ok []
  findContours := fun m => .ok (if maskAny m then [[⟨0, 0⟩, ⟨1, 1⟩]] else [])
  contourArea := fun _ => 1000
  approxVertices := fun c => c.length
  hsv := fun img => .ok img
  morphOpen := fun m => .ok m
  morphClose := fun m => .ok m
  sobelMag := fun g => .ok (g.map (fun row => row.map (fun v => (v : ℚ))))
  histCorrel := fun _ _ => .ok 1
  resize := fun img _ => img
  log1p := fun _ => 0

/-- The zero random stream: every unit sample is 0. -/
def rngZ : Rng := ⟨fun _ => 0⟩

/-- A second random stream, differing from `rngZ`. -/
def rngH : Rng := ⟨fun _ => 1 / 2⟩

/-! ## Generic list lemmas -/

/-- Folding an if-guarded accumulation equals the accumulator plus the sum
of the guarded terms. -/
theorem foldl_if_add (p : String → Prop) [DecidablePred p] (g : String → ℚ) :
    ∀ (l : List String) (a : ℚ),
      l.foldl (fun acc s => if p s then acc + g s else acc) a
        = a + (l.map (fun s => if p s then g s else 0)).sum := by
  intro l
  induction l with
  | nil => intro a; simp
  | cons x xs ih =>
    intro a
    simp only [List.foldl_cons, List.map_cons, List.sum_cons, ih]
    by_cases hx : p x
    · simp [hx]; ring
    · simp [hx]

/-- The tally of a severity list counts each table key's occurrences. -/
theorem tally_count (s : String) (hs : sevKeys.contains s = true) :
    ∀ (l : List String) (f : String → ℕ),
      (l.foldl bumpCount f) s = f s + l.count s := by
  intro l
  induction l with
  | nil => intro f; simp
  | cons x xs ih =>
    intro f
    simp only [List.foldl_cons, List.count_cons, ih]
    unfold bumpCount
    by_cases hx : sevKeys.contains x
    · rw [if_pos hx]
      by_cases hxs : s = x
      · subst hxs; simp; omega
      · have hxs2 : x ≠ s := fun h => hxs h.symm
        have hb : (x == s) = false := by simp [beq_iff_eq, hxs2]
        simp [hb, hxs]
    · rw [if_neg hx]
      have hxs : s ≠ x := fun h => hx (h ▸ hs)
      have hxs2 : x ≠ s := fun h => hxs h.symm
      have hb : (x == s) = false := by simp [beq_iff_eq, hxs2]
      simp [hb]

/-- The mean of a list bounded above by `c ≥ 0` is bounded by `c`. -/
theorem meanQ_le (l : List ℚ) (c : ℚ) (hc : 0 ≤ c) (h : ∀ x ∈ l, x ≤ c) :
    meanQ l ≤ c := by
  unfold meanQ
  split
  · exact hc
  · rename_i hne
    have hlen : 0 < (l.length : ℚ) := by
      have : 0 < l.length := List.length_pos.mpr hne
      exact_mod_cast this
    rw [div_le_iff₀ hlen]
    calc l.sum ≤ l.length • c := List.sum_le_card_nsmul l c h
    _ = c * l.length := by rw [nsmul_eq_mul]; ring

/-- Rounding to one decimal keeps a value of `[0, 10]` inside `[0, 10]`. -/
theorem roundTo_one_bounds (q : ℚ) (h0 : 0 ≤ q) (h10 : q ≤ 10) :
    0 ≤ roundTo 1 q ∧ roundTo 1 q ≤ 10 := by
  unfold roundTo
  have hp : ((10 : ℚ) ^ (1 : ℕ)) = 10 := by norm_num
  rw [hp]
  constructor
  · apply div_nonneg _ (by norm_num)
    have hfl : (0 : ℤ) ≤ ⌊q * 10 + 1 / 2⌋ := by
      apply Int.floor_nonneg.mpr
      linarith
    exact_mod_cast hfl
  · rw [div_le_iff₀ (by norm_num : (0:ℚ) < 10)]
    have hlt : ⌊q * 10 + 1 / 2⌋ < (101 : ℤ) := by
      rw [Int.floor_lt]
      push_cast
      linarith
    have hle : ⌊q * 10 + 1 / 2⌋ ≤ (100 : ℤ) := by omega
    have hc : ((⌊q * 10 + 1 / 2⌋ : ℤ) : ℚ) ≤ 100 := by exact_mod_cast hle
    linarith

/-! ## C5 — the generic damage-kind priority cascade -/

/-- First-match evaluation of an ordered rule list, the spec's view of the
decision cascade. -/
def firstMatch (rules : List (Bool × String)) (dflt : String) : String :=
  match rules with
  | [] => dflt
  | (b, s) :: rest => if b then s else firstMatch rest dflt

/-- Following the spec's words: the ordered (predicate, outcome) list of
the generic classifier's decision cascade. -/
def spec_damage_rules (disaster_type : Option String)
    (correlation blue_increase green_decrease red_increase texture_diff : ℚ) :
    List (Bool × String) :=
  [(decide (disaster_type = some "flood" ∨ blue_increase > 30), "Flooding"),
   (decide (disaster_type = some "fire" ∨ red_increase > 30), "Fire Damage"),
   (decide (disaster_type = some "earthquake" ∧ texture_diff > 50), "Building Collapse"),
   (decide (texture_diff > 50 ∧ correlation < 0.5), "Structural Damage"),
   (decide (green_decrease > 20), "Vegetation Loss"),
   (decide (correlation < 0.3), "Severe Damage"),
   (decide (correlation < 0.7), "Surface Damage")]

/-- C5: the generic classifier's damage kind is the first-match evaluation
of exactly the spec's ordered priority rules — declared flood type or blue
increase, declared fire type or red increase, declared earthquake with high
texture difference, texture with low correlation, green decrease, very low
correlation, moderately low correlation, otherwise Minor Change. -/
theorem classify_cascade_priority_order (disaster_type : Option String)
    (correlation blue_increase green_decrease red_increase texture_diff : ℚ) :
    classify_cascade disaster_type correlation blue_increase green_decrease
        red_increase texture_diff
      = firstMatch (spec_damage_rules disaster_type correlation blue_increase
          green_decrease red_increase texture_diff) "Minor Change" := by
  simp only [classify_cascade, spec_damage_rules, firstMatch,
    decide_eq_true_eq]

/-! ## C6 — the severity scorer formula and range -/

/-- C6: the severity scorer computes exactly the spec formula — the capped
change-percentage base, the log-dampened weighted severity counts over the
generic, building and road collections, the capped flood and vegetation
terms, all clamped to `[0,10]` and rounded to one decimal — and its value
lies in `[0, 10]`.  `log1p` is the model of `math.log1p`, so `log1p 0 = 0`. -/
theorem severity_score_spec (log1p : ℕ → ℚ) (h0 : log1p 0 = 0)
    (changed_percentage : ℚ) (damaged_areas : List DamagedArea)
    (building_damage : List BuildingInfo) (road_damage : List RoadInfo)
    (flooded_areas : List FloodInfo) (vegetation_loss : List VegInfo) :
    calculate_severity_score log1p changed_percentage damaged_areas
        building_damage road_damage flooded_areas vegetation_loss
      = spec_severity_score log1p changed_percentage damaged_areas
          building_damage road_damage flooded_areas vegetation_loss ∧
    0 ≤ calculate_severity_score log1p changed_percentage damaged_areas
          building_damage road_damage flooded_areas vegetation_loss ∧
    calculate_severity_score log1p changed_percentage damaged_areas
          building_damage road_damage flooded_areas vegetation_loss ≤ 10 := by
  have hbounds : ∀ t : ℚ, 0 ≤ roundTo 1 (min (max (t / 10) 0) 10) ∧
      roundTo 1 (min (max (t / 10) 0) 10) ≤ 10 := by
    intro t
    apply roundTo_one_bounds
    · exact le_min (le_max_right _ _) (by norm_num)
    · exact min_le_right _ _
  refine ⟨?_, ?_, ?_⟩
  · unfold calculate_severity_score spec_severity_score
    simp only []
    set sevs := damaged_areas.map (fun a => a.severity)
        ++ building_damage.map (fun b => b.severity)
        ++ road_damage.map (fun r => r.severity) with hsevs
    have hfold :
        sevKeys.foldl (fun acc s =>
            if 0 < tally sevs s then acc + weightOf s * log1p (tally sevs s)
            else acc) 0
          = (sevKeys.map (fun s => weightOf s * log1p (sevs.count s))).sum := by
      rw [foldl_if_add (fun s => 0 < tally sevs s)
        (fun s => weightOf s * log1p (tally sevs s)) sevKeys 0]
      rw [zero_add]
      congr 1
      apply List.map_congr_left
      intro s hsmem
      have hs : sevKeys.contains s = true := by
        rw [List.contains_iff_exists_mem_beq]
        exact ⟨s, hsmem, by simp⟩
      have hcnt : tally sevs s = sevs.count s := by
        unfold tally
        rw [tally_count s hs]
        simp
      rw [hcnt]
      by_cases hz : 0 < sevs.count s
      · rw [if_pos hz]
      · rw [if_neg hz]
        have hz0 : sevs.count s = 0 := by omega
        rw [hz0, h0, mul_zero]
    rw [hfold]
  · unfold calculate_severity_score
    exact (hbounds _).1
  · unfold calculate_severity_score
    exact (hbounds _).2

/-! ## C8 — building severity and uint8 wraparound -/

/-- Closed instantiation of the C6 theorem at the zero `log1p` model, zero
change percentage and empty collections. -/
theorem severity_score_spec_witness :
    calculate_severity_score (fun _ => 0) 0 [] [] [] [] []
      = spec_severity_score (fun _ => 0) 0 [] [] [] [] [] ∧
    0 ≤ calculate_severity_score (fun _ => 0) 0 [] [] [] [] [] ∧
    calculate_severity_score (fun _ => 0) 0 [] [] [] [] [] ≤ 10 :=
  severity_score_spec (fun _ => 0) rfl 0 [] [] [] [] []

/-- C8: because NumPy evaluates `(before_gray - after_gray) ** 2` in
`uint8`, every entry of the squared difference is reduced modulo 256, the
mean never exceeds 255, and the >1000/>2000/>3000 tiers are unreachable:
the building severity is always `Minor Damage`.  At the concrete crops
(gray 0 versus gray 56) the exact-arithmetic tiering of the spec yields
`Collapsed` (mse = 3136) while the code yields `Minor Damage` (wrapped
mse = 64). -/
theorem building_severity_always_minor :
    (∀ (cv : CV) (before_roi after_roi : Img),
      calculate_building_damage_severity cv before_roi after_roi = "Minor Damage") ∧
    calculate_building_damage_severity cvT [[(0, 0, 0)]] [[(56, 56, 56)]]
      = "Minor Damage" ∧
    spec_building_damage_severity cvT [[(0, 0, 0)]] [[(56, 56, 56)]]
      = "Collapsed" := by
  refine ⟨?_,
    by norm_num [calculate_building_damage_severity, cvT, meanQ, wrapSqDiff]; decide,
    by norm_num [spec_building_damage_severity, cvT, meanQ]⟩
  intro cv before_roi after_roi
  simp only [calculate_building_damage_severity]
  have hb : meanQ ((((cv.gray before_roi).flatten).zip
      ((cv.gray after_roi).flatten)).map
      (fun pq => (wrapSqDiff pq.1 pq.2 : ℚ))) ≤ 255 := by
    apply meanQ_le _ _ (by norm_num)
    intro x hx
    simp only [List.mem_map] at hx
    obtain ⟨pq, _, rfl⟩ := hx
    have : wrapSqDiff pq.1 pq.2 < 256 := Nat.mod_lt _ (by norm_num)
    have h255 : wrapSqDiff pq.1 pq.2 ≤ 255 := by omega
    exact_mod_cast h255
  split_ifs with h1 h2 h3
  · linarith
  · linarith
  · linarith
  · rfl

/-! ## C10 — the frame property of `update_job_status` -/

/-- C10: `update_job_status` creates no entry for an unknown id and, for a
registered id, rewrites exactly the status, progress, message and
`updated_at` fields of that entry, leaving its id and `created_at`, and
every other registry key, unchanged. -/
theorem update_job_status_frame (jobs : Registry) (comparison_id status : String)
    (progress : ℚ) (message : Option String) (now : String) :
    (jobs comparison_id = none →
      update_job_status jobs comparison_id status progress message now = jobs) ∧
    (∀ j, jobs comparison_id = some j →
      update_job_status jobs comparison_id status progress message now comparison_id
        = some { j with status := status, progress := progress,
                        message := message, updated_at := now } ∧
      ∀ k, k ≠ comparison_id →
        update_job_status jobs comparison_id status progress message now k
          = jobs k) := by
  constructor
  · intro h
    unfold update_job_status
    rw [h]
  · intro j hj
    unfold update_job_status
    rw [hj]
    exact ⟨by simp, fun k hk => by simp [hk]⟩

/-! ## Projections used by the level- and randomness-independence claims -/

/-- The identity of a generic region: its id and bounding coordinates. -/
def DamagedArea.idCoords (a : DamagedArea) : ℕ × List ℕ := (a.id, a.coordinates)

/-- The identity of a building region. -/
def BuildingInfo.idCoords (b : BuildingInfo) : ℕ × List ℕ := (b.id, b.coordinates)

/-- The identity of a road region. -/
def RoadInfo.idCoords (r : RoadInfo) : ℕ × List ℕ := (r.id, r.coordinates)

/-- The identity of a flood region. -/
def FloodInfo.idCoords (f : FloodInfo) : ℕ × List ℕ := (f.id, f.coordinates)

/-- The identity of a vegetation region. -/
def VegInfo.idCoords (v : VegInfo) : ℕ × List ℕ := (v.id, v.coordinates)

/-- All fields of a building record except the random confidence. -/
def BuildingInfo.detKey (b : BuildingInfo) :
    ℕ × List ℕ × String × Option String × Option String :=
  (b.id, b.coordinates, b.severity, b.type, b.safety)

/-- All fields of a road record except the random confidence. -/
def RoadInfo.detKey (r : RoadInfo) :
    ℕ × List ℕ × String × Option ℚ × Option String :=
  (r.id, r.coordinates, r.severity, r.length, r.passability)

/-- All fields of a flood record except the random confidence and the
randomly drawn flow direction and timeline. -/
def FloodInfo.detKey (f : FloodInfo) :
    ℕ × List ℕ × String × ℚ × Option ℚ :=
  (f.id, f.coordinates, f.water_depth, f.area, f.area_sqm)

/-- All fields of a vegetation record except the random confidence and the
randomly drawn vegetation type. -/
def VegInfo.detKey (v : VegInfo) :
    ℕ × List ℕ × String × Option String × Option String :=
  (v.id, v.coordinates, v.area, v.density, v.ecological_impact)

/-- The level-independent deterministic key of a building record: the
region's identity plus its severity tier (`type` and `safety` are
detailed-only metadata; the confidence is a fresh random draw). -/
def BuildingInfo.lvlKey (b : BuildingInfo) : ℕ × List ℕ × String :=
  (b.id, b.coordinates, b.severity)

/-- The level-independent deterministic key of a road record (`length` and
`passability` are detailed-only metadata). -/
def RoadInfo.lvlKey (r : RoadInfo) : ℕ × List ℕ × String :=
  (r.id, r.coordinates, r.severity)

/-- The level-independent deterministic key of a flood record: identity,
water-depth band and numeric area (`area_sqm`, flow direction and timeline
are detailed-only metadata). -/
def FloodInfo.lvlKey (f : FloodInfo) : ℕ × List ℕ × String × ℚ :=
  (f.id, f.coordinates, f.water_depth, f.area)

/-- The level-independent deterministic key of a vegetation record:
identity and the formatted area string (`density`, vegetation type and
ecological impact are detailed-only metadata). -/
def VegInfo.lvlKey (v : VegInfo) : ℕ × List ℕ × String :=
  (v.id, v.coordinates, v.area)

/-- Every field of a generic region except the detailed-only recovery
estimate.  The generic loop draws nothing random, so even the confidence
is level-independent. -/
def DamagedArea.core (a : DamagedArea) :
    ℕ × List ℕ × ℚ × String × String × ℚ :=
  (a.id, a.coordinates, a.area, a.severity, a.type, a.confidence)

/-- The five region-identity lists of a result. -/
def identities (res : AnalysisResult) :
    List (ℕ × List ℕ) × List (ℕ × List ℕ) × List (ℕ × List ℕ) ×
    List (ℕ × List ℕ) × List (ℕ × List ℕ) :=
  (res.damaged_areas.map DamagedArea.idCoords,
   res.building_damage.map BuildingInfo.idCoords,
   res.road_damage.map RoadInfo.idCoords,
   res.flooded_areas.map FloodInfo.idCoords,
   res.vegetation_loss.map VegInfo.idCoords)

/-- Everything in a result that the spec calls deterministic: the change
percentage, the severity score, the full generic collection, and the four
specialized collections minus their random fields. -/
def detView (res : AnalysisResult) :=
  (res.changed_pixels_percentage, res.severity_score, res.damaged_areas,
   res.building_damage.map BuildingInfo.detKey,
   res.road_damage.map RoadInfo.detKey,
   res.flooded_areas.map FloodInfo.detKey,
   res.vegetation_loss.map VegInfo.detKey)

/-- The level-independent view of a result: the generic collection up to
the detailed-only recovery estimate, and the four specialized collections
under their level-independent deterministic keys. -/
def coreView (res : AnalysisResult) :=
  (res.damaged_areas.map DamagedArea.core,
   res.building_damage.map BuildingInfo.lvlKey,
   res.road_damage.map RoadInfo.lvlKey,
   res.flooded_areas.map FloodInfo.lvlKey,
   res.vegetation_loss.map VegInfo.lvlKey)

/-! ## Generic congruence lemmas for the detector folds -/

/-- Two pure detector folds whose steps agree under a projection of the
accumulated list agree under that projection. -/
theorem foldl_key_congr {β γ X : Type _} (key : X → γ)
    (f g : List X × ℕ → β → List X × ℕ)
    (h : ∀ a b x, a.1.map key = b.1.map key →
      (f a x).1.map key = (g b x).1.map key) :
    ∀ (l : List β) (a b : List X × ℕ),
      a.1.map key = b.1.map key →
      (l.foldl f a).1.map key = (l.foldl g b).1.map key := by
  intro l
  induction l with
  | nil => intro a b hab; exact hab
  | cons x xs ih => intro a b hab; exact ih _ _ (h a b x hab)

/-- Two fallible detector folds whose steps agree under a projection (same
errors, projection-equal successes) agree under that projection. -/
theorem foldlM_key_congr {β γ X : Type _} (key : X → γ)
    (f g : List X × ℕ → β → Except String (List X × ℕ))
    (h : ∀ a b x, a.1.map key = b.1.map key →
      (f a x).map (fun p => p.1.map key) = (g b x).map (fun p => p.1.map key)) :
    ∀ (l : List β) (a b : List X × ℕ),
      a.1.map key = b.1.map key →
      (l.foldlM f a).map (fun p => p.1.map key)
        = (l.foldlM g b).map (fun p => p.1.map key) := by
  intro l
  induction l with
  | nil =>
    intro a b hab
    simp only [List.foldlM_nil, Except.map, pure, Except.pure, hab]
  | cons x xs ih =>
    intro a b hab
    have h1 := h a b x hab
    simp only [List.foldlM_cons]
    cases hfa : f a x with
    | error e =>
      cases hgb : g b x with
      | error e2 =>
        have he : e = e2 := by
          rw [hfa, hgb] at h1
          simpa [Except.map] using h1
        simp [hfa, hgb, he, Bind.bind, Except.bind, Except.map]
      | ok b' =>
        rw [hfa, hgb] at h1
        simp [Except.map] at h1
    | ok a' =>
      cases hgb : g b x with
      | error e =>
        rw [hfa, hgb] at h1
        simp [Except.map] at h1
      | ok b' =>
        have hab' : a'.1.map key = b'.1.map key := by
          rw [hfa, hgb] at h1
          simpa [Except.map] using h1
        simp only [hfa, hgb, Bind.bind, Except.bind]
        exact ih _ _ hab'

/-! ## Per-detector congruence: level and random stream gate metadata only -/

theorem building_step_idCoords_congr (cv : CV) (bi ai : Img)
    (contours : List Contour) (l1 l2 : String) (r1 r2 : Rng)
    (a b : List BuildingInfo × ℕ) (x : ℕ × Contour)
    (hab : a.1.map BuildingInfo.idCoords = b.1.map BuildingInfo.idCoords) :
    (building_step cv bi ai contours l1 r1 a x).1.map BuildingInfo.idCoords
      = (building_step cv bi ai contours l2 r2 b x).1.map BuildingInfo.idCoords := by
  unfold building_step
  dsimp only
  split_ifs <;>
    simp_all [List.map_append, BuildingInfo.idCoords]

theorem building_step_detKey_congr (cv : CV) (bi ai : Img)
    (contours : List Contour) (l : String) (r1 r2 : Rng)
    (a b : List BuildingInfo × ℕ) (x : ℕ × Contour)
    (hab : a.1.map BuildingInfo.detKey = b.1.map BuildingInfo.detKey) :
    (building_step cv bi ai contours l r1 a x).1.map BuildingInfo.detKey
      = (building_step cv bi ai contours l r2 b x).1.map BuildingInfo.detKey := by
  unfold building_step
  dsimp only
  split_ifs <;>
    simp_all [List.map_append, BuildingInfo.detKey]

theorem flood_step_idCoords_congr (cv : CV) (ai : Img) (l1 l2 : String)
    (r1 r2 : Rng) (a b : List FloodInfo × ℕ) (x : ℕ × Contour)
    (hab : a.1.map FloodInfo.idCoords = b.1.map FloodInfo.idCoords) :
    (flood_step cv ai l1 r1 a x).1.map FloodInfo.idCoords
      = (flood_step cv ai l2 r2 b x).1.map FloodInfo.idCoords := by
  unfold flood_step
  dsimp only
  split_ifs <;>
    simp_all [List.map_append, FloodInfo.idCoords]

theorem flood_step_detKey_congr (cv : CV) (ai : Img) (l : String)
    (r1 r2 : Rng) (a b : List FloodInfo × ℕ) (x : ℕ × Contour)
    (hab : a.1.map FloodInfo.detKey = b.1.map FloodInfo.detKey) :
    (flood_step cv ai l r1 a x).1.map FloodInfo.detKey
      = (flood_step cv ai l r2 b x).1.map FloodInfo.detKey := by
  unfold flood_step
  dsimp only
  split_ifs <;>
    simp_all [List.map_append, FloodInfo.detKey]

theorem veg_step_idCoords_congr (cv : CV) (bi : Img) (l1 l2 : String)
    (r1 r2 : Rng) (a b : List VegInfo × ℕ) (x : ℕ × Contour)
    (hab : a.1.map VegInfo.idCoords = b.1.map VegInfo.idCoords) :
    (veg_step cv bi l1 r1 a x).1.map VegInfo.idCoords
      = (veg_step cv bi l2 r2 b x).1.map VegInfo.idCoords := by
  unfold veg_step
  dsimp only
  split_ifs <;>
    simp_all [List.map_append, VegInfo.idCoords]

theorem veg_step_detKey_congr (cv : CV) (bi : Img) (l : String)
    (r1 r2 : Rng) (a b : List VegInfo × ℕ) (x : ℕ × Contour)
    (hab : a.1.map VegInfo.detKey = b.1.map VegInfo.detKey) :
    (veg_step cv bi l r1 a x).1.map VegInfo.detKey
      = (veg_step cv bi l r2 b x).1.map VegInfo.detKey := by
  unfold veg_step
  dsimp only
  split_ifs <;>
    simp_all [List.map_append, VegInfo.detKey]

theorem building_step_lvlKey_congr (cv : CV) (bi ai : Img)
    (contours : List Contour) (l1 l2 : String) (r1 r2 : Rng)
    (a b : List BuildingInfo × ℕ) (x : ℕ × Contour)
    (hab : a.1.map BuildingInfo.lvlKey = b.1.map BuildingInfo.lvlKey) :
    (building_step cv bi ai contours l1 r1 a x).1.map BuildingInfo.lvlKey
      = (building_step cv bi ai contours l2 r2 b x).1.map BuildingInfo.lvlKey := by
  unfold building_step
  dsimp only
  split_ifs <;>
    simp_all [List.map_append, BuildingInfo.lvlKey]

theorem flood_step_lvlKey_congr (cv : CV) (ai : Img) (l1 l2 : String)
    (r1 r2 : Rng) (a b : List FloodInfo × ℕ) (x : ℕ × Contour)
    (hab : a.1.map FloodInfo.lvlKey = b.1.map FloodInfo.lvlKey) :
    (flood_step cv ai l1 r1 a x).1.map FloodInfo.lvlKey
      = (flood_step cv ai l2 r2 b x).1.map FloodInfo.lvlKey := by
  unfold flood_step
  dsimp only
  split_ifs <;>
    simp_all [List.map_append, FloodInfo.lvlKey]

theorem veg_step_lvlKey_congr (cv : CV) (bi : Img) (l1 l2 : String)
    (r1 r2 : Rng) (a b : List VegInfo × ℕ) (x : ℕ × Contour)
    (hab : a.1.map VegInfo.lvlKey = b.1.map VegInfo.lvlKey) :
    (veg_step cv bi l1 r1 a x).1.map VegInfo.lvlKey
      = (veg_step cv bi l2 r2 b x).1.map VegInfo.lvlKey := by
  unfold veg_step
  dsimp only
  split_ifs <;>
    simp_all [List.map_append, VegInfo.lvlKey]

/-- Binding the same fallible computation into two continuations that agree
under a projection gives projection-equal results. -/
theorem except_map_bind_congr {α β γ : Type _} (u : Except String α)
    (k1 k2 : α → Except String β) (f : β → γ)
    (h : ∀ x, (k1 x).map f = (k2 x).map f) :
    (u >>= k1).map f = (u >>= k2).map f := by
  cases u with
  | error e => simp [Bind.bind, Except.bind, Except.map]
  | ok x => simpa [Bind.bind, Except.bind] using h x

theorem road_inner_idCoords_congr (cv : CV) (bi ai : Img) (l1 l2 : String)
    (r1 r2 : Rng) (i rx ry rw rh : ℕ) (a b : List RoadInfo × ℕ) (dc : Contour)
    (hab : a.1.map RoadInfo.idCoords = b.1.map RoadInfo.idCoords) :
    (road_inner cv bi ai l1 r1 i rx ry rw rh a dc).map
        (fun p => p.1.map RoadInfo.idCoords)
      = (road_inner cv bi ai l2 r2 i rx ry rw rh b dc).map
          (fun p => p.1.map RoadInfo.idCoords) := by
  unfold road_inner
  dsimp only
  split_ifs <;>
    first
      | (apply except_map_bind_congr
         intro sev
         simp_all [pure, Except.pure, Except.map, List.map_append, RoadInfo.idCoords])
      | simp [pure, Except.pure, Except.map, hab]

theorem road_inner_detKey_congr (cv : CV) (bi ai : Img) (l : String)
    (r1 r2 : Rng) (i rx ry rw rh : ℕ) (a b : List RoadInfo × ℕ) (dc : Contour)
    (hab : a.1.map RoadInfo.detKey = b.1.map RoadInfo.detKey) :
    (road_inner cv bi ai l r1 i rx ry rw rh a dc).map
        (fun p => p.1.map RoadInfo.detKey)
      = (road_inner cv bi ai l r2 i rx ry rw rh b dc).map
          (fun p => p.1.map RoadInfo.detKey) := by
  unfold road_inner
  dsimp only
  split_ifs <;>
    first
      | (apply except_map_bind_congr
         intro sev
         simp_all [pure, Except.pure, Except.map, List.map_append, RoadInfo.detKey])
      | simp [pure, Except.pure, Except.map, hab]

theorem road_inner_lvlKey_congr (cv : CV) (bi ai : Img) (l1 l2 : String)
    (r1 r2 : Rng) (i rx ry rw rh : ℕ) (a b : List RoadInfo × ℕ) (dc : Contour)
    (hab : a.1.map RoadInfo.lvlKey = b.1.map RoadInfo.lvlKey) :
    (road_inner cv bi ai l1 r1 i rx ry rw rh a dc).map
        (fun p => p.1.map RoadInfo.lvlKey)
      = (road_inner cv bi ai l2 r2 i rx ry rw rh b dc).map
          (fun p => p.1.map RoadInfo.lvlKey) := by
  unfold road_inner
  dsimp only
  split_ifs <;>
    first
      | (apply except_map_bind_congr
         intro sev
         simp_all [pure, Except.pure, Except.map, List.map_append, RoadInfo.lvlKey])
      | simp [pure, Except.pure, Except.map, hab]

theorem road_step_lvlKey_congr (cv : CV) (bi ai : Img)
    (contours : List Contour) (l1 l2 : String) (r1 r2 : Rng)
    (a b : List RoadInfo × ℕ) (x : ℕ × Contour)
    (hab : a.1.map RoadInfo.lvlKey = b.1.map RoadInfo.lvlKey) :
    (road_step cv bi ai contours l1 r1 a x).map
        (fun p => p.1.map RoadInfo.lvlKey)
      = (road_step cv bi ai contours l2 r2 b x).map
          (fun p => p.1.map RoadInfo.lvlKey) := by
  unfold road_step
  dsimp only
  split_ifs with h1
  · simp [pure, Except.pure, Except.map, hab]
  · exact foldlM_key_congr RoadInfo.lvlKey _ _
      (fun a b dc hab2 => road_inner_lvlKey_congr cv bi ai l1 l2 r1 r2 _ _ _ _ _ a b dc hab2)
      contours a b hab

theorem road_step_idCoords_congr (cv : CV) (bi ai : Img)
    (contours : List Contour) (l1 l2 : String) (r1 r2 : Rng)
    (a b : List RoadInfo × ℕ) (x : ℕ × Contour)
    (hab : a.1.map RoadInfo.idCoords = b.1.map RoadInfo.idCoords) :
    (road_step cv bi ai contours l1 r1 a x).map
        (fun p => p.1.map RoadInfo.idCoords)
      = (road_step cv bi ai contours l2 r2 b x).map
          (fun p => p.1.map RoadInfo.idCoords) := by
  unfold road_step
  dsimp only
  split_ifs with h1
  · simp [pure, Except.pure, Except.map, hab]
  · exact foldlM_key_congr RoadInfo.idCoords _ _
      (fun a b dc hab2 => road_inner_idCoords_congr cv bi ai l1 l2 r1 r2 _ _ _ _ _ a b dc hab2)
      contours a b hab

theorem road_step_detKey_congr (cv : CV) (bi ai : Img)
    (contours : List Contour) (l : String) (r1 r2 : Rng)
    (a b : List RoadInfo × ℕ) (x : ℕ × Contour)
    (hab : a.1.map RoadInfo.detKey = b.1.map RoadInfo.detKey) :
    (road_step cv bi ai contours l r1 a x).map
        (fun p => p.1.map RoadInfo.detKey)
      = (road_step cv bi ai contours l r2 b x).map
          (fun p => p.1.map RoadInfo.detKey) := by
  unfold road_step
  dsimp only
  split_ifs with h1
  · simp [pure, Except.pure, Except.map, hab]
  · exact foldlM_key_congr RoadInfo.detKey _ _
      (fun a b dc hab2 => road_inner_detKey_congr cv bi ai l r1 r2 _ _ _ _ _ a b dc hab2)
      contours a b hab

/-- Case pairing extracted from a projection equality of two `Except`s. -/
theorem except_rel_cases {α γ : Type _} {f : α → γ} {u v : Except String α}
    (h : u.map f = v.map f) :
    (∃ e, u = .error e ∧ v = .error e) ∨
    (∃ x y, u = .ok x ∧ v = .ok y ∧ f x = f y) := by
  cases u with
  | error e =>
    cases v with
    | error e2 =>
      left
      refine ⟨e, rfl, ?_⟩
      simp [Except.map] at h
      simp [h]
    | ok y => simp [Except.map] at h
  | ok x =>
    cases v with
    | error e2 => simp [Except.map] at h
    | ok y =>
      right
      refine ⟨x, y, rfl, rfl, ?_⟩
      simpa [Except.map] using h

theorem detect_building_idCoords_congr (cv : CV) (bi ai : Img)
    (contours : List Contour) (l1 l2 : String) (r1 r2 : Rng) (n1 n2 : ℕ) :
    (detect_building_damage cv bi ai contours l1 r1 n1).map
        (fun p => p.1.map BuildingInfo.idCoords)
      = (detect_building_damage cv bi ai contours l2 r2 n2).map
          (fun p => p.1.map BuildingInfo.idCoords) := by
  unfold detect_building_damage
  dsimp only
  cases hc1 : cv.canny (cv.gray bi) with
  | error e => simp [hc1, Bind.bind, Except.bind, Except.map]
  | ok m1 =>
    cases hc2 : cv.canny (cv.gray ai) with
    | error e => simp [hc1, hc2, Bind.bind, Except.bind, Except.map]
    | ok m2 =>
      cases hf : cv.findContours m1 with
      | error e => simp [hc1, hc2, hf, Bind.bind, Except.bind, Except.map]
      | ok bcs =>
        simp only [hc1, hc2, hf, Bind.bind, Except.bind, pure, Except.pure, Except.map]
        exact congrArg Except.ok (foldl_key_congr BuildingInfo.idCoords _ _
          (fun a b x hab =>
            building_step_idCoords_congr cv bi ai contours l1 l2 r1 r2 a b x hab)
          bcs.enum ([], n1) ([], n2) rfl)

theorem detect_building_detKey_congr (cv : CV) (bi ai : Img)
    (contours : List Contour) (l : String) (r1 r2 : Rng) (n1 n2 : ℕ) :
    (detect_building_damage cv bi ai contours l r1 n1).map
        (fun p => p.1.map BuildingInfo.detKey)
      = (detect_building_damage cv bi ai contours l r2 n2).map
          (fun p => p.1.map BuildingInfo.detKey) := by
  unfold detect_building_damage
  dsimp only
  cases hc1 : cv.canny (cv.gray bi) with
  | error e => simp [hc1, Bind.bind, Except.bind, Except.map]
  | ok m1 =>
    cases hc2 : cv.canny (cv.gray ai) with
    | error e => simp [hc1, hc2, Bind.bind, Except.bind, Except.map]
    | ok m2 =>
      cases hf : cv.findContours m1 with
      | error e => simp [hc1, hc2, hf, Bind.bind, Except.bind, Except.map]
      | ok bcs =>
        simp only [hc1, hc2, hf, Bind.bind, Except.bind, pure, Except.pure, Except.map]
        exact congrArg Except.ok (foldl_key_congr BuildingInfo.detKey _ _
          (fun a b x hab =>
            building_step_detKey_congr cv bi ai contours l r1 r2 a b x hab)
          bcs.enum ([], n1) ([], n2) rfl)

theorem detect_road_idCoords_congr (cv : CV) (bi ai : Img)
    (contours : List Contour) (l1 l2 : String) (r1 r2 : Rng) (n1 n2 : ℕ) :
    (detect_road_damage cv bi ai contours l1 r1 n1).map
        (fun p => p.1.map RoadInfo.idCoords)
      = (detect_road_damage cv bi ai contours l2 r2 n2).map
          (fun p => p.1.map RoadInfo.idCoords) := by
  unfold detect_road_damage
  dsimp only
  cases hh : cv.hsv bi with
  | error e => simp [hh, Bind.bind, Except.bind, Except.map]
  | ok hsvb =>
    cases hmo : cv.morphOpen (inRange hsvb (0, 0, 70) (180, 30, 220)) with
    | error e => simp [hh, hmo, Bind.bind, Except.bind, Except.map]
    | ok m1 =>
      cases hmc : cv.morphClose m1 with
      | error e => simp [hh, hmo, hmc, Bind.bind, Except.bind, Except.map]
      | ok m2 =>
        cases hf : cv.findContours m2 with
        | error e => simp [hh, hmo, hmc, hf, Bind.bind, Except.bind, Except.map]
        | ok rcs =>
          simp only [hh, hmo, hmc, hf, Bind.bind, Except.bind]
          exact foldlM_key_congr RoadInfo.idCoords _ _
            (fun a b x hab =>
              road_step_idCoords_congr cv bi ai contours l1 l2 r1 r2 a b x hab)
            rcs.enum ([], n1) ([], n2) rfl

theorem detect_road_detKey_congr (cv : CV) (bi ai : Img)
    (contours : List Contour) (l : String) (r1 r2 : Rng) (n1 n2 : ℕ) :
    (detect_road_damage cv bi ai contours l r1 n1).map
        (fun p => p.1.map RoadInfo.detKey)
      = (detect_road_damage cv bi ai contours l r2 n2).map
          (fun p => p.1.map RoadInfo.detKey) := by
  unfold detect_road_damage
  dsimp only
  cases hh : cv.hsv bi with
  | error e => simp [hh, Bind.bind, Except.bind, Except.map]
  | ok hsvb =>
    cases hmo : cv.morphOpen (inRange hsvb (0, 0, 70) (180, 30, 220)) with
    | error e => simp [hh, hmo, Bind.bind, Except.bind, Except.map]
    | ok m1 =>
      cases hmc : cv.morphClose m1 with
      | error e => simp [hh, hmo, hmc, Bind.bind, Except.bind, Except.map]
      | ok m2 =>
        cases hf : cv.findContours m2 with
        | error e => simp [hh, hmo, hmc, hf, Bind.bind, Except.bind, Except.map]
        | ok rcs =>
          simp only [hh, hmo, hmc, hf, Bind.bind, Except.bind]
          exact foldlM_key_congr RoadInfo.detKey _ _
            (fun a b x hab =>
              road_step_detKey_congr cv bi ai contours l r1 r2 a b x hab)
            rcs.enum ([], n1) ([], n2) rfl

theorem detect_flood_idCoords_congr (cv : CV) (bi ai : Img)
    (l1 l2 : String) (r1 r2 : Rng) (n1 n2 : ℕ) :
    (detect_flooded_areas cv bi ai l1 r1 n1).map
        (fun p => p.1.map FloodInfo.idCoords)
      = (detect_flooded_areas cv bi ai l2 r2 n2).map
          (fun p => p.1.map FloodInfo.idCoords) := by
  unfold detect_flooded_areas
  dsimp only
  cases hh1 : cv.hsv bi with
  | error e => simp [hh1, Bind.bind, Except.bind, Except.map]
  | ok hsvb =>
    cases hh2 : cv.hsv ai with
    | error e => simp [hh1, hh2, Bind.bind, Except.bind, Except.map]
    | ok hsva =>
      cases hmo : cv.morphOpen (maskAndNot (inRange hsva (90, 50, 50) (130, 255, 255))
          (inRange hsvb (90, 50, 50) (130, 255, 255))) with
      | error e => simp [hh1, hh2, hmo, Bind.bind, Except.bind, Except.map]
      | ok m1 =>
        cases hmc : cv.morphClose m1 with
        | error e => simp [hh1, hh2, hmo, hmc, Bind.bind, Except.bind, Except.map]
        | ok m2 =>
          cases hf : cv.findContours m2 with
          | error e => simp [hh1, hh2, hmo, hmc, hf, Bind.bind, Except.bind, Except.map]
          | ok fcs =>
            simp only [hh1, hh2, hmo, hmc, hf, Bind.bind, Except.bind, pure, Except.pure, Except.map]
            exact congrArg Except.ok (foldl_key_congr FloodInfo.idCoords _ _
              (fun a b x hab => flood_step_idCoords_congr cv ai l1 l2 r1 r2 a b x hab)
              fcs.enum ([], n1) ([], n2) rfl)

theorem detect_flood_detKey_congr (cv : CV) (bi ai : Img)
    (l : String) (r1 r2 : Rng) (n1 n2 : ℕ) :
    (detect_flooded_areas cv bi ai l r1 n1).map
        (fun p => p.1.map FloodInfo.detKey)
      = (detect_flooded_areas cv bi ai l r2 n2).map
          (fun p => p.1.map FloodInfo.detKey) := by
  unfold detect_flooded_areas
  dsimp only
  cases hh1 : cv.hsv bi with
  | error e => simp [hh1, Bind.bind, Except.bind, Except.map]
  | ok hsvb =>
    cases hh2 : cv.hsv ai with
    | error e => simp [hh1, hh2, Bind.bind, Except.bind, Except.map]
    | ok hsva =>
      cases hmo : cv.morphOpen (maskAndNot (inRange hsva (90, 50, 50) (130, 255, 255))
          (inRange hsvb (90, 50, 50) (130, 255, 255))) with
      | error e => simp [hh1, hh2, hmo, Bind.bind, Except.bind, Except.map]
      | ok m1 =>
        cases hmc : cv.morphClose m1 with
        | error e => simp [hh1, hh2, hmo, hmc, Bind.bind, Except.bind, Except.map]
        | ok m2 =>
          cases hf : cv.findContours m2 with
          | error e => simp [hh1, hh2, hmo, hmc, hf, Bind.bind, Except.bind, Except.map]
          | ok fcs =>
            simp only [hh1, hh2, hmo, hmc, hf, Bind.bind, Except.bind, pure, Except.pure, Except.map]
            exact congrArg Except.ok (foldl_key_congr FloodInfo.detKey _ _
              (fun a b x hab => flood_step_detKey_congr cv ai l r1 r2 a b x hab)
              fcs.enum ([], n1) ([], n2) rfl)

theorem detect_veg_idCoords_congr (cv : CV) (bi ai : Img)
    (l1 l2 : String) (r1 r2 : Rng) (n1 n2 : ℕ) :
    (detect_vegetation_loss cv bi ai l1 r1 n1).map
        (fun p => p.1.map VegInfo.idCoords)
      = (detect_vegetation_loss cv bi ai l2 r2 n2).map
          (fun p => p.1.map VegInfo.idCoords) := by
  unfold detect_vegetation_loss
  dsimp only
  cases hh1 : cv.hsv bi with
  | error e => simp [hh1, Bind.bind, Except.bind, Except.map]
  | ok hsvb =>
    cases hh2 : cv.hsv ai with
    | error e => simp [hh1, hh2, Bind.bind, Except.bind, Except.map]
    | ok hsva =>
      cases hmo : cv.morphOpen (maskAndNot (inRange hsvb (30, 40, 40) (90, 255, 255))
          (inRange hsva (30, 40, 40) (90, 255, 255))) with
      | error e => simp [hh1, hh2, hmo, Bind.bind, Except.bind, Except.map]
      | ok m1 =>
        cases hmc : cv.morphClose m1 with
        | error e => simp [hh1, hh2, hmo, hmc, Bind.bind, Except.bind, Except.map]
        | ok m2 =>
          cases hf : cv.findContours m2 with
          | error e => simp [hh1, hh2, hmo, hmc, hf, Bind.bind, Except.bind, Except.map]
          | ok vcs =>
            simp only [hh1, hh2, hmo, hmc, hf, Bind.bind, Except.bind, pure, Except.pure, Except.map]
            exact congrArg Except.ok (foldl_key_congr VegInfo.idCoords _ _
              (fun a b x hab => veg_step_idCoords_congr cv bi l1 l2 r1 r2 a b x hab)
              vcs.enum ([], n1) ([], n2) rfl)

theorem detect_veg_detKey_congr (cv : CV) (bi ai : Img)
    (l : String) (r1 r2 : Rng) (n1 n2 : ℕ) :
    (detect_vegetation_loss cv bi ai l r1 n1).map
        (fun p => p.1.map VegInfo.detKey)
      = (detect_vegetation_loss cv bi ai l r2 n2).map
          (fun p => p.1.map VegInfo.detKey) := by
  unfold detect_vegetation_loss
  dsimp only
  cases hh1 : cv.hsv bi with
  | error e => simp [hh1, Bind.bind, Except.bind, Except.map]
  | ok hsvb =>
    cases hh2 : cv.hsv ai with
    | error e => simp [hh1, hh2, Bind.bind, Except.bind, Except.map]
    | ok hsva =>
      cases hmo : cv.morphOpen (maskAndNot (inRange hsvb (30, 40, 40) (90, 255, 255))
          (inRange hsva (30, 40, 40) (90, 255, 255))) with
      | error e => simp [hh1, hh2, hmo, Bind.bind, Except.bind, Except.map]
      | ok m1 =>
        cases hmc : cv.morphClose m1 with
        | error e => simp [hh1, hh2, hmo, hmc, Bind.bind, Except.bind, Except.map]
        | ok m2 =>
          cases hf : cv.findContours m2 with
          | error e => simp [hh1, hh2, hmo, hmc, hf, Bind.bind, Except.bind, Except.map]
          | ok vcs =>
            simp only [hh1, hh2, hmo, hmc, hf, Bind.bind, Except.bind, pure, Except.pure, Except.map]
            exact congrArg Except.ok (foldl_key_congr VegInfo.detKey _ _
              (fun a b x hab => veg_step_detKey_congr cv bi l r1 r2 a b x hab)
              vcs.enum ([], n1) ([], n2) rfl)

theorem detect_building_lvlKey_congr (cv : CV) (bi ai : Img)
    (contours : List Contour) (l1 l2 : String) (r1 r2 : Rng) (n1 n2 : ℕ) :
    (detect_building_damage cv bi ai contours l1 r1 n1).map
        (fun p => p.1.map BuildingInfo.lvlKey)
      = (detect_building_damage cv bi ai contours l2 r2 n2).map
          (fun p => p.1.map BuildingInfo.lvlKey) := by
  unfold detect_building_damage
  dsimp only
  cases hc1 : cv.canny (cv.gray bi) with
  | error e => simp [hc1, Bind.bind, Except.bind, Except.map]
  | ok m1 =>
    cases hc2 : cv.canny (cv.gray ai) with
    | error e => simp [hc1, hc2, Bind.bind, Except.bind, Except.map]
    | ok m2 =>
      cases hf : cv.findContours m1 with
      | error e => simp [hc1, hc2, hf, Bind.bind, Except.bind, Except.map]
      | ok bcs =>
        simp only [hc1, hc2, hf, Bind.bind, Except.bind, pure, Except.pure, Except.map]
        exact congrArg Except.ok (foldl_key_congr BuildingInfo.lvlKey _ _
          (fun a b x hab =>
            building_step_lvlKey_congr cv bi ai contours l1 l2 r1 r2 a b x hab)
          bcs.enum ([], n1) ([], n2) rfl)

theorem detect_road_lvlKey_congr (cv : CV) (bi ai : Img)
    (contours : List Contour) (l1 l2 : String) (r1 r2 : Rng) (n1 n2 : ℕ) :
    (detect_road_damage cv bi ai contours l1 r1 n1).map
        (fun p => p.1.map RoadInfo.lvlKey)
      = (detect_road_damage cv bi ai contours l2 r2 n2).map
          (fun p => p.1.map RoadInfo.lvlKey) := by
  unfold detect_road_damage
  dsimp only
  cases hh : cv.hsv bi with
  | error e => simp [hh, Bind.bind, Except.bind, Except.map]
  | ok hsvb =>
    cases hmo : cv.morphOpen (inRange hsvb (0, 0, 70) (180, 30, 220)) with
    | error e => simp [hh, hmo, Bind.bind, Except.bind, Except.map]
    | ok m1 =>
      cases hmc : cv.morphClose m1 with
      | error e => simp [hh, hmo, hmc, Bind.bind, Except.bind, Except.map]
      | ok m2 =>
        cases hf : cv.findContours m2 with
        | error e => simp [hh, hmo, hmc, hf, Bind.bind, Except.bind, Except.map]
        | ok rcs =>
          simp only [hh, hmo, hmc, hf, Bind.bind, Except.bind]
          exact foldlM_key_congr RoadInfo.lvlKey _ _
            (fun a b x hab =>
              road_step_lvlKey_congr cv bi ai contours l1 l2 r1 r2 a b x hab)
            rcs.enum ([], n1) ([], n2) rfl

theorem detect_flood_lvlKey_congr (cv : CV) (bi ai : Img)
    (l1 l2 : String) (r1 r2 : Rng) (n1 n2 : ℕ) :
    (detect_flooded_areas cv bi ai l1 r1 n1).map
        (fun p => p.1.map FloodInfo.lvlKey)
      = (detect_flooded_areas cv bi ai l2 r2 n2).map
          (fun p => p.1.map FloodInfo.lvlKey) := by
  unfold detect_flooded_areas
  dsimp only
  cases hh1 : cv.hsv bi with
  | error e => simp [hh1, Bind.bind, Except.bind, Except.map]
  | ok hsvb =>
    cases hh2 : cv.hsv ai with
    | error e => simp [hh1, hh2, Bind.bind, Except.bind, Except.map]
    | ok hsva =>
      cases hmo : cv.morphOpen (maskAndNot (inRange hsva (90, 50, 50) (130, 255, 255))
          (inRange hsvb (90, 50, 50) (130, 255, 255))) with
      | error e => simp [hh1, hh2, hmo, Bind.bind, Except.bind, Except.map]
      | ok m1 =>
        cases hmc : cv.morphClose m1 with
        | error e => simp [hh1, hh2, hmo, hmc, Bind.bind, Except.bind, Except.map]
        | ok m2 =>
          cases hf : cv.findContours m2 with
          | error e => simp [hh1, hh2, hmo, hmc, hf, Bind.bind, Except.bind, Except.map]
          | ok fcs =>
            simp only [hh1, hh2, hmo, hmc, hf, Bind.bind, Except.bind, pure, Except.pure, Except.map]
            exact congrArg Except.ok (foldl_key_congr FloodInfo.lvlKey _ _
              (fun a b x hab => flood_step_lvlKey_congr cv ai l1 l2 r1 r2 a b x hab)
              fcs.enum ([], n1) ([], n2) rfl)

theorem detect_veg_lvlKey_congr (cv : CV) (bi ai : Img)
    (l1 l2 : String) (r1 r2 : Rng) (n1 n2 : ℕ) :
    (detect_vegetation_loss cv bi ai l1 r1 n1).map
        (fun p => p.1.map VegInfo.lvlKey)
      = (detect_vegetation_loss cv bi ai l2 r2 n2).map
          (fun p => p.1.map VegInfo.lvlKey) := by
  unfold detect_vegetation_loss
  dsimp only
  cases hh1 : cv.hsv bi with
  | error e => simp [hh1, Bind.bind, Except.bind, Except.map]
  | ok hsvb =>
    cases hh2 : cv.hsv ai with
    | error e => simp [hh1, hh2, Bind.bind, Except.bind, Except.map]
    | ok hsva =>
      cases hmo : cv.morphOpen (maskAndNot (inRange hsvb (30, 40, 40) (90, 255, 255))
          (inRange hsva (30, 40, 40) (90, 255, 255))) with
      | error e => simp [hh1, hh2, hmo, Bind.bind, Except.bind, Except.map]
      | ok m1 =>
        cases hmc : cv.morphClose m1 with
        | error e => simp [hh1, hh2, hmo, hmc, Bind.bind, Except.bind, Except.map]
        | ok m2 =>
          cases hf : cv.findContours m2 with
          | error e => simp [hh1, hh2, hmo, hmc, hf, Bind.bind, Except.bind, Except.map]
          | ok vcs =>
            simp only [hh1, hh2, hmo, hmc, hf, Bind.bind, Except.bind, pure, Except.pure, Except.map]
            exact congrArg Except.ok (foldl_key_congr VegInfo.lvlKey _ _
              (fun a b x hab => veg_step_lvlKey_congr cv bi l1 l2 r1 r2 a b x hab)
              vcs.enum ([], n1) ([], n2) rfl)

/-- The four specialized collections, projected to region identities. -/
def quadIdCoords
    (q : List BuildingInfo × List RoadInfo × List FloodInfo × List VegInfo) :
    List (ℕ × List ℕ) × List (ℕ × List ℕ) × List (ℕ × List ℕ) × List (ℕ × List ℕ) :=
  (q.1.map BuildingInfo.idCoords, q.2.1.map RoadInfo.idCoords,
   q.2.2.1.map FloodInfo.idCoords, q.2.2.2.map VegInfo.idCoords)

/-- The four specialized collections minus their random fields. -/
def quadDetKey
    (q : List BuildingInfo × List RoadInfo × List FloodInfo × List VegInfo) :=
  (q.1.map BuildingInfo.detKey, q.2.1.map RoadInfo.detKey,
   q.2.2.1.map FloodInfo.detKey, q.2.2.2.map VegInfo.detKey)

/-- The four specialized collections under their level-independent keys. -/
def quadLvlKey
    (q : List BuildingInfo × List RoadInfo × List FloodInfo × List VegInfo) :=
  (q.1.map BuildingInfo.lvlKey, q.2.1.map RoadInfo.lvlKey,
   q.2.2.1.map FloodInfo.lvlKey, q.2.2.2.map VegInfo.lvlKey)

theorem run_detectors_lvlKey_congr (cv : CV) (r1 r2 : Rng) (bi ai : Img)
    (contours : List Contour) (l1 l2 : String)
    (h1 : l1 ≠ "basic") (h2 : l2 ≠ "basic") :
    (run_detectors cv r1 bi ai contours l1).map quadLvlKey
      = (run_detectors cv r2 bi ai contours l2).map quadLvlKey := by
  unfold run_detectors
  rw [if_neg h1, if_neg h2]
  rcases except_rel_cases
      (detect_building_lvlKey_congr cv bi ai contours l1 l2 r1 r2 0 0) with
    ⟨e, hu, hv⟩ | ⟨⟨lb1, nb1⟩, ⟨lb2, nb2⟩, hu, hv, hkb⟩
  · simp [hu, hv, Bind.bind, Except.bind, Except.map]
  · simp only [hu, hv, Bind.bind, Except.bind]
    rcases except_rel_cases
        (detect_road_lvlKey_congr cv bi ai contours l1 l2 r1 r2 nb1 nb2) with
      ⟨e, hu2, hv2⟩ | ⟨⟨lr1, nr1⟩, ⟨lr2, nr2⟩, hu2, hv2, hkr⟩
    · simp [hu2, hv2, Bind.bind, Except.bind, Except.map]
    · simp only [hu2, hv2, Bind.bind, Except.bind]
      rcases except_rel_cases
          (detect_flood_lvlKey_congr cv bi ai l1 l2 r1 r2 nr1 nr2) with
        ⟨e, hu3, hv3⟩ | ⟨⟨lf1, nf1⟩, ⟨lf2, nf2⟩, hu3, hv3, hkf⟩
      · simp [hu3, hv3, Bind.bind, Except.bind, Except.map]
      · simp only [hu3, hv3, Bind.bind, Except.bind]
        rcases except_rel_cases
            (detect_veg_lvlKey_congr cv bi ai l1 l2 r1 r2 nf1 nf2) with
          ⟨e, hu4, hv4⟩ | ⟨⟨lv1, nv1⟩, ⟨lv2, nv2⟩, hu4, hv4, hkv⟩
        · simp [hu4, hv4, Bind.bind, Except.bind, Except.map]
        · simp only [hu4, hv4, Bind.bind, Except.bind, pure, Except.pure, Except.map]
          simp only [quadLvlKey] at *
          simp_all

theorem run_detectors_idCoords_congr (cv : CV) (r1 r2 : Rng) (bi ai : Img)
    (contours : List Contour) (l1 l2 : String)
    (h1 : l1 ≠ "basic") (h2 : l2 ≠ "basic") :
    (run_detectors cv r1 bi ai contours l1).map quadIdCoords
      = (run_detectors cv r2 bi ai contours l2).map quadIdCoords := by
  unfold run_detectors
  rw [if_neg h1, if_neg h2]
  rcases except_rel_cases
      (detect_building_idCoords_congr cv bi ai contours l1 l2 r1 r2 0 0) with
    ⟨e, hu, hv⟩ | ⟨⟨lb1, nb1⟩, ⟨lb2, nb2⟩, hu, hv, hkb⟩
  · simp [hu, hv, Bind.bind, Except.bind, Except.map]
  · simp only [hu, hv, Bind.bind, Except.bind]
    rcases except_rel_cases
        (detect_road_idCoords_congr cv bi ai contours l1 l2 r1 r2 nb1 nb2) with
      ⟨e, hu2, hv2⟩ | ⟨⟨lr1, nr1⟩, ⟨lr2, nr2⟩, hu2, hv2, hkr⟩
    · simp [hu2, hv2, Bind.bind, Except.bind, Except.map]
    · simp only [hu2, hv2, Bind.bind, Except.bind]
      rcases except_rel_cases
          (detect_flood_idCoords_congr cv bi ai l1 l2 r1 r2 nr1 nr2) with
        ⟨e, hu3, hv3⟩ | ⟨⟨lf1, nf1⟩, ⟨lf2, nf2⟩, hu3, hv3, hkf⟩
      · simp [hu3, hv3, Bind.bind, Except.bind, Except.map]
      · simp only [hu3, hv3, Bind.bind, Except.bind]
        rcases except_rel_cases
            (detect_veg_idCoords_congr cv bi ai l1 l2 r1 r2 nf1 nf2) with
          ⟨e, hu4, hv4⟩ | ⟨⟨lv1, nv1⟩, ⟨lv2, nv2⟩, hu4, hv4, hkv⟩
        · simp [hu4, hv4, Bind.bind, Except.bind, Except.map]
        · simp only [hu4, hv4, Bind.bind, Except.bind, pure, Except.pure, Except.map]
          simp only [quadIdCoords] at *
          simp_all

theorem run_detectors_detKey_congr (cv : CV) (r1 r2 : Rng) (bi ai : Img)
    (contours : List Contour) (l : String) :
    (run_detectors cv r1 bi ai contours l).map quadDetKey
      = (run_detectors cv r2 bi ai contours l).map quadDetKey := by
  unfold run_detectors
  by_cases hb : l = "basic"
  · simp only [if_pos hb]
  · simp only [if_neg hb]
    rcases except_rel_cases
        (detect_building_detKey_congr cv bi ai contours l r1 r2 0 0) with
      ⟨e, hu, hv⟩ | ⟨⟨lb1, nb1⟩, ⟨lb2, nb2⟩, hu, hv, hkb⟩
    · simp [hu, hv, Bind.bind, Except.bind, Except.map]
    · simp only [hu, hv, Bind.bind, Except.bind]
      rcases except_rel_cases
          (detect_road_detKey_congr cv bi ai contours l r1 r2 nb1 nb2) with
        ⟨e, hu2, hv2⟩ | ⟨⟨lr1, nr1⟩, ⟨lr2, nr2⟩, hu2, hv2, hkr⟩
      · simp [hu2, hv2, Bind.bind, Except.bind, Except.map]
      · simp only [hu2, hv2, Bind.bind, Except.bind]
        rcases except_rel_cases
            (detect_flood_detKey_congr cv bi ai l r1 r2 nr1 nr2) with
          ⟨e, hu3, hv3⟩ | ⟨⟨lf1, nf1⟩, ⟨lf2, nf2⟩, hu3, hv3, hkf⟩
        · simp [hu3, hv3, Bind.bind, Except.bind, Except.map]
        · simp only [hu3, hv3, Bind.bind, Except.bind]
          rcases except_rel_cases
              (detect_veg_detKey_congr cv bi ai l r1 r2 nf1 nf2) with
            ⟨e, hu4, hv4⟩ | ⟨⟨lv1, nv1⟩, ⟨lv2, nv2⟩, hu4, hv4, hkv⟩
          · simp [hu4, hv4, Bind.bind, Except.bind, Except.map]
          · simp only [hu4, hv4, Bind.bind, Except.bind, pure, Except.pure, Except.map]
            simp only [quadDetKey] at *
            simp_all

theorem analyze_idCoords_congr (cv : CV) (contours : List Contour) (bi ai : Img)
    (dt : Option String) (l1 l2 : String) :
    (analyze_damaged_areas cv contours bi ai dt l1).map (List.map DamagedArea.idCoords)
      = (analyze_damaged_areas cv contours bi ai dt l2).map
          (List.map DamagedArea.idCoords) := by
  unfold analyze_damaged_areas
  cases hl : analyze_loop cv bi ai dt contours with
  | error e => simp [hl, Bind.bind, Except.bind, Except.map]
  | ok d =>
    simp only [hl, Bind.bind, Except.bind, pure, Except.pure, Except.map]
    have key : ∀ (l : String),
        (if l = "detailed" then d.map addRecovery else d).map DamagedArea.idCoords
          = d.map DamagedArea.idCoords := by
      intro l
      split_ifs
      · rw [List.map_map]
        apply List.map_congr_left
        intro a _
        simp [addRecovery, DamagedArea.idCoords]
      · rfl
    rw [key l1, key l2]

/-- The generic collection agrees across analysis levels on every field
except the detailed-only recovery estimate: the loop itself never reads the
level, and the `detailed` post-pass sets only `estimated_recovery`. -/
theorem analyze_core_congr (cv : CV) (contours : List Contour) (bi ai : Img)
    (dt : Option String) (l1 l2 : String) :
    (analyze_damaged_areas cv contours bi ai dt l1).map (List.map DamagedArea.core)
      = (analyze_damaged_areas cv contours bi ai dt l2).map
          (List.map DamagedArea.core) := by
  unfold analyze_damaged_areas
  cases hl : analyze_loop cv bi ai dt contours with
  | error e => simp [hl, Bind.bind, Except.bind, Except.map]
  | ok d =>
    simp only [hl, Bind.bind, Except.bind, pure, Except.pure, Except.map]
    have key : ∀ (l : String),
        (if l = "detailed" then d.map addRecovery else d).map DamagedArea.core
          = d.map DamagedArea.core := by
      intro l
      split_ifs
      · rw [List.map_map]
        apply List.map_congr_left
        intro a _
        simp [addRecovery, DamagedArea.core]
      · rfl
    rw [key l1, key l2]

theorem analyze_eq_of_not_detailed (cv : CV) (contours : List Contour)
    (bi ai : Img) (dt : Option String) (l1 l2 : String)
    (h1 : l1 ≠ "detailed") (h2 : l2 ≠ "detailed") :
    analyze_damaged_areas cv contours bi ai dt l1
      = analyze_damaged_areas cv contours bi ai dt l2 := by
  unfold analyze_damaged_areas
  cases hl : analyze_loop cv bi ai dt contours <;>
    simp [hl, Bind.bind, Except.bind, h1, h2]

/-- The severity scorer only reads the severity labels of the generic,
building and road collections and the lengths of the flood and vegetation
collections. -/
theorem score_congr (log1p : ℕ → ℚ) (cp : ℚ) (d : List DamagedArea)
    (b b' : List BuildingInfo) (r r' : List RoadInfo)
    (f f' : List FloodInfo) (v v' : List VegInfo)
    (hb : b.map (fun x => x.severity) = b'.map (fun x => x.severity))
    (hr : r.map (fun x => x.severity) = r'.map (fun x => x.severity))
    (hf : f.length = f'.length) (hv : v.length = v'.length) :
    calculate_severity_score log1p cp d b r f v
      = calculate_severity_score log1p cp d b' r' f' v' := by
  unfold calculate_severity_score
  rw [hb, hr, hf, hv]

theorem sev_of_detKey_building {b b' : List BuildingInfo}
    (h : b.map BuildingInfo.detKey = b'.map BuildingInfo.detKey) :
    b.map (fun x => x.severity) = b'.map (fun x => x.severity) := by
  have h2 := congrArg (List.map (fun t :
      ℕ × List ℕ × String × Option String × Option String => t.2.2.1)) h
  simpa [List.map_map, BuildingInfo.detKey, Function.comp] using h2

theorem sev_of_detKey_road {r r' : List RoadInfo}
    (h : r.map RoadInfo.detKey = r'.map RoadInfo.detKey) :
    r.map (fun x => x.severity) = r'.map (fun x => x.severity) := by
  have h2 := congrArg (List.map (fun t :
      ℕ × List ℕ × String × Option ℚ × Option String => t.2.2.1)) h
  simpa [List.map_map, RoadInfo.detKey, Function.comp] using h2

theorem length_of_map_eq {α β : Type _} {f : α → β} {l l' : List α}
    (h : l.map f = l'.map f) : l.length = l'.length := by
  have h2 := congrArg List.length h
  simpa using h2

/-! ## C3 — determinism of the pipeline core -/

/-- C3 (amended): for a fixed image pair and configuration, two pipeline
runs differing only in the global random stream agree on everything except
the randomly drawn fields: same error or same change percentage, severity
score, full generic collection, and specialized collections up to the
random confidences and the random detailed metadata. -/
theorem pipeline_deterministic_core (cv : CV) (rng rng' : Rng) (bi ai : Img)
    (comparison_id : String) (dt region : Option String) (level : String)
    (raw : Bool) :
    (compare_images cv rng bi ai comparison_id dt region level raw).map detView
      = (compare_images cv rng' bi ai comparison_id dt region level raw).map
          detView := by
  unfold compare_images
  dsimp only
  cases hm : main_contours cv bi ai with
  | error e => simp [hm, Bind.bind, Except.bind, Except.map]
  | ok contours =>
    cases ha : analyze_damaged_areas cv contours bi ai dt level with
    | error e => simp [hm, ha, Bind.bind, Except.bind, Except.map]
    | ok damaged =>
      rcases except_rel_cases
          (run_detectors_detKey_congr cv rng rng' bi ai contours level) with
        ⟨e, hu, hv⟩ | ⟨⟨b1, r1c, f1, v1⟩, ⟨b2, r2c, f2, v2⟩, hu, hv, hk⟩
      · simp [hm, ha, hu, hv, Bind.bind, Except.bind, Except.map]
      · obtain ⟨hkb, hkr, hkf, hkv⟩ :
            b1.map BuildingInfo.detKey = b2.map BuildingInfo.detKey ∧
            r1c.map RoadInfo.detKey = r2c.map RoadInfo.detKey ∧
            f1.map FloodInfo.detKey = f2.map FloodInfo.detKey ∧
            v1.map VegInfo.detKey = v2.map VegInfo.detKey := by
          simpa [quadDetKey] using hk
        have hscore := score_congr cv.log1p (changed_percentage_of cv bi ai)
          damaged b1 b2 r1c r2c f1 f2 v1 v2 (sev_of_detKey_building hkb)
          (sev_of_detKey_road hkr) (length_of_map_eq hkf) (length_of_map_eq hkv)
        simp only [hm, ha, hu, hv, Bind.bind, Except.bind, pure, Except.pure,
          Except.map]
        simp [detView, hkb, hkr, hkf, hkv, hscore]

/-- The 2×2 all-black before image used by the concrete counterexamples. -/
def imgB : Img := [[(0, 0, 0), (0, 0, 0)], [(0, 0, 0), (0, 0, 0)]]

/-- The 2×2 uniformly (100,100,100) after image: under the trivial
HSV-as-identity collaborator it is water-colored everywhere. -/
def imgA : Img := [[(100, 100, 100), (100, 100, 100)],
                   [(100, 100, 100), (100, 100, 100)]]

/-- Counterexample to C3 as stated: two runs on the same images and
configuration, differing only in the random stream, produce flood regions
with different confidence values. -/
theorem pipeline_confidence_not_deterministic :
    (compare_images cvT rngZ imgB imgA "jobC3" none none "standard" false).map
        (fun r => r.flooded_areas.map (fun f => f.confidence))
      ≠ (compare_images cvT rngH imgB imgA "jobC3" none none "standard" false).map
          (fun r => r.flooded_areas.map (fun f => f.confidence)) := by
  have h1 : (compare_images cvT rngZ imgB imgA "jobC3" none none "standard" false).map
      (fun r => r.flooded_areas.map (fun f => f.confidence))
      = .ok [roundTo 2 (rngZ.uniform 0.85 0.98 0)] := rfl
  have h2 : (compare_images cvT rngH imgB imgA "jobC3" none none "standard" false).map
      (fun r => r.flooded_areas.map (fun f => f.confidence))
      = .ok [roundTo 2 (rngH.uniform 0.85 0.98 0)] := rfl
  rw [h1, h2]
  simp only [ne_eq, Except.ok.injEq, List.cons.injEq, and_true]
  norm_num [Rng.uniform, rngZ, rngH, roundTo]

/-! ## C1 — analysis level and detection -/

/-- C1 (amended): the analysis level gates metadata, not detection, only
between `standard` and `detailed`: those two levels (under any random
streams) detect exactly the same regions in all five collections — the
generic collection agrees on every field except the detailed-only recovery
estimate (ids, coordinates, areas, severities, types, confidences), and
each specialized collection agrees on its level-independent deterministic
key: id, coordinates and severity for buildings and roads; id,
coordinates, water depth and numeric area for floods; id, coordinates and
formatted area for vegetation — so only the detailed-only optional
metadata fields and the per-run random confidences differ.  `basic`,
however, suppresses the four specialized detectors entirely (empty
collections), while its generic collection is identical to the one
detected at `standard`. -/
theorem analysis_level_gates_metadata_only (cv : CV) (rng rng' : Rng)
    (bi ai : Img) (comparison_id : String) (dt region : Option String)
    (raw : Bool) :
    ((compare_images cv rng bi ai comparison_id dt region "standard" raw).map coreView
      = (compare_images cv rng' bi ai comparison_id dt region "detailed" raw).map
          coreView) ∧
    (∀ res, compare_images cv rng bi ai comparison_id dt region "basic" raw = .ok res →
      res.building_damage = [] ∧ res.road_damage = [] ∧
      res.flooded_areas = [] ∧ res.vegetation_loss = []) ∧
    (∀ res res',
      compare_images cv rng bi ai comparison_id dt region "basic" raw = .ok res →
      compare_images cv rng' bi ai comparison_id dt region "standard" raw = .ok res' →
      res.damaged_areas = res'.damaged_areas) := by
  refine ⟨?_, ?_, ?_⟩
  · unfold compare_images
    dsimp only
    cases hm : main_contours cv bi ai with
    | error e => simp [hm, Bind.bind, Except.bind, Except.map]
    | ok contours =>
      rcases except_rel_cases
          (analyze_core_congr cv contours bi ai dt "standard" "detailed") with
        ⟨e, hu, hv⟩ | ⟨d1, d2, hu, hv, hkd⟩
      · simp [hm, hu, hv, Bind.bind, Except.bind, Except.map]
      · rcases except_rel_cases
            (run_detectors_lvlKey_congr cv rng rng' bi ai contours
              "standard" "detailed" (by decide) (by decide)) with
          ⟨e, hu2, hv2⟩ | ⟨⟨b1, r1c, f1, v1⟩, ⟨b2, r2c, f2, v2⟩, hu2, hv2, hk⟩
        · simp [hm, hu, hv, hu2, hv2, Bind.bind, Except.bind, Except.map]
        · obtain ⟨hkb, hkr, hkf, hkv⟩ :
              b1.map BuildingInfo.lvlKey = b2.map BuildingInfo.lvlKey ∧
              r1c.map RoadInfo.lvlKey = r2c.map RoadInfo.lvlKey ∧
              f1.map FloodInfo.lvlKey = f2.map FloodInfo.lvlKey ∧
              v1.map VegInfo.lvlKey = v2.map VegInfo.lvlKey := by
            simpa [quadLvlKey] using hk
          simp only [hm, hu, hv, hu2, hv2, Bind.bind, Except.bind, pure,
            Except.pure, Except.map]
          simp [coreView, hkd, hkb, hkr, hkf, hkv]
  · intro res h
    unfold compare_images at h
    dsimp only at h
    cases hm : main_contours cv bi ai with
    | error e =>
      rw [hm] at h
      simp [Bind.bind, Except.bind] at h
    | ok contours =>
      rw [hm] at h
      simp only [Bind.bind, Except.bind] at h
      cases ha : analyze_damaged_areas cv contours bi ai dt "basic" with
      | error e =>
        rw [ha] at h
        simp [Bind.bind, Except.bind] at h
      | ok damaged =>
        rw [ha] at h
        simp only [run_detectors, reduceIte, Bind.bind, Except.bind, pure,
          Except.pure] at h
        injection h with h
        subst h
        exact ⟨rfl, rfl, rfl, rfl⟩
  · intro res res' h h'
    unfold compare_images at h h'
    dsimp only at h h'
    cases hm : main_contours cv bi ai with
    | error e =>
      rw [hm] at h
      simp [Bind.bind, Except.bind] at h
    | ok contours =>
      rw [hm] at h h'
      simp only [Bind.bind, Except.bind] at h h'
      have hsame := analyze_eq_of_not_detailed cv contours bi ai dt
        "basic" "standard" (by decide) (by decide)
      cases ha : analyze_damaged_areas cv contours bi ai dt "basic" with
      | error e =>
        rw [ha] at h
        simp [Bind.bind, Except.bind] at h
      | ok damaged =>
        rw [ha] at h
        rw [hsame] at ha
        rw [ha] at h'
        simp only [run_detectors, reduceIte, Bind.bind, Except.bind, pure,
          Except.pure] at h
        cases hq : run_detectors cv rng' bi ai contours "standard" with
        | error e =>
          rw [hq] at h'
          simp [Bind.bind, Except.bind] at h'
        | ok quad =>
          rw [hq] at h'
          obtain ⟨bq, rq, fq, vq⟩ := quad
          simp only [Bind.bind, Except.bind, pure, Except.pure] at h'
          injection h with h
          injection h' with h'
          subst h
          subst h'
          rfl

/-- Counterexample to C1 as stated: on a concrete image pair the `basic`
level detects no flood region while `standard` detects one — the region
counts differ between levels. -/
theorem level_gates_detection_counterexample :
    (compare_images cvT rngZ imgB imgA "jobC1" none none "basic" false).map
        (fun r => r.flooded_areas.length) = .ok 0 ∧
    (compare_images cvT rngZ imgB imgA "jobC1" none none "standard" false).map
        (fun r => r.flooded_areas.length) = .ok 1 :=
  ⟨rfl, rfl⟩

/-- Witness for the amended C1 at a concrete input: a successful `basic`
run with empty specialized collections. -/
theorem analysis_level_gates_metadata_only_witness :
    ∃ res, compare_images cvT rngZ imgB imgA "jobC1w" none none "basic" false
        = .ok res ∧
      res.building_damage = [] ∧ res.road_damage = [] ∧
      res.flooded_areas = [] ∧ res.vegetation_loss = [] := by
  cases hres : compare_images cvT rngZ imgB imgA "jobC1w" none none "basic" false with
  | error e =>
    have hok : (compare_images cvT rngZ imgB imgA "jobC1w" none none "basic" false).isOk
        = true := rfl
    rw [hres] at hok
    simp [Except.isOk, Except.toBool] at hok
  | ok res =>
    exact ⟨res, rfl,
      (analysis_level_gates_metadata_only cvT rngZ rngZ imgB imgA "jobC1w"
        none none false).2.1 res hres⟩

/-! ## Orchestrator lemmas and the job-lifecycle claims -/

/-- The progress values reported by a run, in order. -/
def progresses (events : List JobEvent) : List ℚ :=
  events.filterMap JobEvent.progressOf

/-- `Except.ok`-ness of a pipeline outcome. -/
def exceptOk? : Except String AnalysisResult → Bool
  | .ok _ => true
  | .error _ => false

theorem runEvents_append (comparison_id now : String) (st : OrchState)
    (a b : List JobEvent) :
    runEvents comparison_id now st (a ++ b)
      = runEvents comparison_id now (runEvents comparison_id now st a) b := by
  unfold runEvents
  exact List.foldl_append _ _ a b

theorem applyEvent_jobs_isSome (comparison_id now : String) (st : OrchState)
    (e : JobEvent) :
    ((applyEvent comparison_id now st e).jobs comparison_id).isSome
      = (st.jobs comparison_id).isSome := by
  cases e with
  | save r => rfl
  | upd s p m =>
    dsimp [applyEvent]
    unfold update_job_status
    cases hj : st.jobs comparison_id with
    | none => simp [hj]
    | some j => simp [hj]

theorem runEvents_jobs_isSome (comparison_id now : String) :
    ∀ (events : List JobEvent) (st : OrchState),
      ((runEvents comparison_id now st events).jobs comparison_id).isSome
        = (st.jobs comparison_id).isSome := by
  intro events
  induction events with
  | nil => intro st; rfl
  | cons e es ih =>
    intro st
    have h1 := applyEvent_jobs_isSome comparison_id now st e
    calc ((runEvents comparison_id now st (e :: es)).jobs comparison_id).isSome
        = ((runEvents comparison_id now (applyEvent comparison_id now st e) es).jobs
            comparison_id).isSome := rfl
      _ = _ := by rw [ih, h1]

/-- The final registry entry after a run whose last event is an update. -/
theorem runEvents_last_upd (comparison_id now : String) (st : OrchState)
    (events : List JobEvent) (s : String) (p : ℚ) (m : String) :
    (runEvents comparison_id now st
        (events ++ [.upd s p m])).jobs comparison_id
      = ((runEvents comparison_id now st events).jobs comparison_id).map
          (fun j => { j with status := s, progress := p,
                             message := some m, updated_at := now }) := by
  rw [runEvents_append]
  show (applyEvent comparison_id now (runEvents comparison_id now st events)
      (.upd s p m)).jobs comparison_id = _
  dsimp [applyEvent]
  unfold update_job_status
  cases hj : (runEvents comparison_id now st events).jobs comparison_id with
  | none => simp [hj]
  | some j => simp [hj]

/-- A run whose last event is the `failed` update never ends `completed`. -/
theorem runEvents_failed_tail_not_completed (comparison_id now : String)
    (st : OrchState) (events : List JobEvent) (m : String) :
    ((runEvents comparison_id now st
        (events ++ [.upd "failed" 0 m])).jobs comparison_id).map
        (fun j => j.status) ≠ some "completed" := by
  rw [runEvents_last_upd]
  cases (runEvents comparison_id now st events).jobs comparison_id <;> simp

/-- Saving never changes the registry, and the store after
`upd completed; save r` holds `r`. -/
theorem runEvents_completed_save (comparison_id now : String) (st : OrchState)
    (events : List JobEvent) (r : AnalysisResult) :
    (runEvents comparison_id now st
        (events ++ [.upd "completed" 100 "Analysis completed successfully",
                    .save r])).store comparison_id = some r := by
  rw [runEvents_append]
  dsimp [runEvents, applyEvent]
  simp

/-- C2 (amended): the source sets `completed` *before* persisting, but in
the final state of every `process_analysis_job` run a job whose status is
`completed` has a stored result: every failure branch — unreadable images,
a pipeline exception, a persistence failure — ends with the `failed`
update, and the only run that ends `completed` is the one whose final event
stored the result. -/
theorem completed_final_state_has_result (cv : CV) (rng : Rng)
    (read : String → Option Img) (persistOk : Bool)
    (comparison_id before_path after_path now : String)
    (dt region : Option String) (level : String) (raw : Bool) (st0 : OrchState) :
    ((runEvents comparison_id now st0 (process_events cv rng read persistOk
        comparison_id before_path after_path dt region level raw)).jobs
        comparison_id).map (fun j => j.status) = some "completed" →
    ∃ r, (runEvents comparison_id now st0 (process_events cv rng read persistOk
        comparison_id before_path after_path dt region level raw)).store
        comparison_id = some r := by
  intro hc
  unfold process_events at hc ⊢
  cases hb : read before_path with
  | none =>
    try rw [hb] at hc
    exact absurd hc (runEvents_failed_tail_not_completed comparison_id now st0
      [.upd "processing" 5 "Starting analysis...",
       .upd "processing" 10 "Reading before image...",
       .upd "processing" 15 "Reading after image..."]
      "Analysis failed: could not read images")
  | some bi =>
    try rw [hb] at hc
    try rw [hb]
    cases ha : read after_path with
    | none =>
      try rw [ha] at hc
      exact absurd hc (runEvents_failed_tail_not_completed comparison_id now st0
        [.upd "processing" 5 "Starting analysis...",
         .upd "processing" 10 "Reading before image...",
         .upd "processing" 15 "Reading after image..."]
        "Analysis failed: could not read images")
    | some ai =>
      try rw [ha] at hc
      try rw [ha]
      dsimp only at hc ⊢
      by_cases hd : dims bi = dims ai
      · simp only [if_pos hd] at hc ⊢
        cases hcmp : compare_images cv rng bi ai comparison_id dt region level raw with
        | error e =>
          try rw [hcmp] at hc
          exact absurd hc (runEvents_failed_tail_not_completed comparison_id now st0
            ([.upd "processing" 5 "Starting analysis...",
              .upd "processing" 10 "Reading before image...",
              .upd "processing" 15 "Reading after image...",
              .upd "processing" 25 "Starting comparison..."] ++
             progress_checkpoint_events)
            ("Analysis failed: " ++ e))
        | ok r =>
          try rw [hcmp] at hc
          try rw [hcmp]
          cases hp : persistOk with
          | false =>
            try rw [hp] at hc
            exact absurd hc (runEvents_failed_tail_not_completed comparison_id now st0
              (([.upd "processing" 5 "Starting analysis...",
                 .upd "processing" 10 "Reading before image...",
                 .upd "processing" 15 "Reading after image...",
                 .upd "processing" 25 "Starting comparison..."] ++
                progress_checkpoint_events) ++
               [.upd "completed" 100 "Analysis completed successfully"])
              "Analysis failed: persistence error")
          | true =>
            exact ⟨r, runEvents_completed_save comparison_id now st0
              ([.upd "processing" 5 "Starting analysis...",
                .upd "processing" 10 "Reading before image...",
                .upd "processing" 15 "Reading after image...",
                .upd "processing" 25 "Starting comparison..."] ++
               progress_checkpoint_events) r⟩
      · simp only [if_neg hd] at hc ⊢
        cases hcmp : compare_images cv rng bi
            (cv.resize ai ((dims bi).2, (dims bi).1))
            comparison_id dt region level raw with
        | error e =>
          try rw [hcmp] at hc
          exact absurd hc (runEvents_failed_tail_not_completed comparison_id now st0
            ([.upd "processing" 5 "Starting analysis...",
              .upd "processing" 10 "Reading before image...",
              .upd "processing" 15 "Reading after image...",
              .upd "processing" 20 "Resizing images...",
              .upd "processing" 25 "Starting comparison..."] ++
             progress_checkpoint_events)
            ("Analysis failed: " ++ e))
        | ok r =>
          try rw [hcmp] at hc
          try rw [hcmp]
          cases hp : persistOk with
          | false =>
            try rw [hp] at hc
            exact absurd hc (runEvents_failed_tail_not_completed comparison_id now st0
              (([.upd "processing" 5 "Starting analysis...",
                 .upd "processing" 10 "Reading before image...",
                 .upd "processing" 15 "Reading after image...",
                 .upd "processing" 20 "Resizing images...",
                 .upd "processing" 25 "Starting comparison..."] ++
                progress_checkpoint_events) ++
               [.upd "completed" 100 "Analysis completed successfully"])
              "Analysis failed: persistence error")
          | true =>
            exact ⟨r, runEvents_completed_save comparison_id now st0
              ([.upd "processing" 5 "Starting analysis...",
                .upd "processing" 10 "Reading before image...",
                .upd "processing" 15 "Reading after image...",
                .upd "processing" 20 "Resizing images...",
                .upd "processing" 25 "Starting comparison..."] ++
               progress_checkpoint_events) r⟩

/-- The initial registry state for the orchestrator examples: one freshly
created job, nothing stored. -/
def st0C2 : OrchState :=
  { jobs := create_job (fun _ => none) "jobC2" "t0", store := fun _ => none }

/-- Counterexample to C2 as stated: in a successful run there is a
reachable state — right after the `completed` update, before the store
write — in which the job is `completed`, no result is stored, and the
result query does not return a result. -/
theorem completed_before_persist_counterexample :
    ((traceStates "jobC2" "t1" st0C2 (process_events cvT rngZ
        (fun _ => some ([[(0, 0, 0)]] : Img)) true "jobC2" "b" "a" none none
        "standard" false)).get? 13).map
      (fun s => ((s.jobs "jobC2").map (fun j => j.status),
                 (s.store "jobC2").isSome,
                 (match get_analysis_result s "jobC2" with
                  | .ok _ => true
                  | _ => false)))
      = some (some "completed", false, false) := rfl

/-- The initial state for the C2 witness run. -/
def st0C2w : OrchState :=
  { jobs := create_job (fun _ => none) "jobC2w" "t0", store := fun _ => none }

/-- Witness for the amended C2: a concrete successful run ends `completed`
with its result stored. -/
theorem completed_final_state_has_result_witness :
    ∃ r, (runEvents "jobC2w" "t1" st0C2w (process_events cvT rngZ
        (fun _ => some ([[(0, 0, 0)]] : Img)) true "jobC2w" "b" "a" none none
        "standard" false)).store "jobC2w" = some r :=
  completed_final_state_has_result cvT rngZ
    (fun _ => some ([[(0, 0, 0)]] : Img)) true "jobC2w" "b" "a" "t1"
    none none "standard" false st0C2w rfl

/-- C4 (amended): on a run that reads both images, compares successfully
and persists, the reported progress sequence is the fixed checkpoint
ladder and never decreases.  (On failure the source resets progress to 0 —
the counterexample — so monotonicity holds only for non-failing runs.) -/
theorem progress_monotone_on_success (cv : CV) (rng : Rng)
    (read : String → Option Img) (comparison_id before_path after_path : String)
    (dt region : Option String) (level : String) (raw : Bool)
    (bi ai : Img) (r : AnalysisResult)
    (hb : read before_path = some bi) (ha : read after_path = some ai)
    (hc : compare_images cv rng bi
        (if dims bi = dims ai then ai
         else cv.resize ai ((dims bi).2, (dims bi).1))
        comparison_id dt region level raw = .ok r) :
    List.Chain' (· ≤ ·) (progresses (process_events cv rng read true
      comparison_id before_path after_path dt region level raw)) := by
  unfold process_events
  rw [hb, ha]
  dsimp only
  rw [hc]
  by_cases hd : dims bi = dims ai
  · simp only [if_pos hd]
    simp [progresses, progress_checkpoint_events, JobEvent.progressOf,
      List.chain'_cons]
    norm_num
  · simp only [if_neg hd]
    simp [progresses, progress_checkpoint_events, JobEvent.progressOf,
      List.chain'_cons]
    norm_num

/-- The trivial 1×1 black image. -/
def img0 : Img := [[(0, 0, 0)]]

/-- Witness for the amended C4: the progress ladder of a concrete
successful run is non-decreasing. -/
theorem progress_monotone_on_success_witness :
    List.Chain' (· ≤ ·) (progresses (process_events cvT rngZ
      (fun _ => some img0) true "jobC4w" "b" "a" none none "standard" false)) := by
  cases hres : compare_images cvT rngZ img0
      (if dims img0 = dims img0 then img0
       else cvT.resize img0 ((dims img0).2, (dims img0).1))
      "jobC4w" none none "standard" false with
  | error e =>
    have hok : exceptOk? (compare_images cvT rngZ img0
        (if dims img0 = dims img0 then img0
         else cvT.resize img0 ((dims img0).2, (dims img0).1))
        "jobC4w" none none "standard" false) = true := rfl
    rw [hres] at hok
    simp [exceptOk?] at hok
  | ok r =>
    exact progress_monotone_on_success cvT rngZ (fun _ => some img0)
      "jobC4w" "b" "a" none none "standard" false img0 img0 r rfl rfl hres

/-- Counterexample to C4 as stated: a run whose reads fail reports the
progress sequence 5, 10, 15 and then 0 — progress regresses, and the
failure update does not retain the last value 15. -/
theorem progress_regression_counterexample :
    progresses (process_events cvT rngZ (fun _ => none) true "jobC4" "b" "a"
        none none "standard" false) = [5, 10, 15, 0] ∧
    ¬ List.Chain' (· ≤ ·) ([5, 10, 15, 0] : List ℚ) ∧
    (15 : ℚ) ≠ 0 := by
  refine ⟨rfl, by norm_num [List.chain'_cons], by norm_num⟩

/-- C9 (amended): an internal error in any damage classifier propagates out
of `compare_images` (there is no per-classifier recovery) and moves the
job to `Failed` with progress reset to 0; the job does not reach
`Completed` with a degraded empty collection. -/
theorem classifier_error_fails_job (cv : CV) (rng : Rng)
    (read : String → Option Img) (persistOk : Bool)
    (comparison_id before_path after_path now : String)
    (dt region : Option String) (level : String) (raw : Bool)
    (st0 : OrchState) (bi ai : Img) (j : AnalysisJob) (e : String)
    (hb : read before_path = some bi) (ha : read after_path = some ai)
    (hj : st0.jobs comparison_id = some j)
    (hc : compare_images cv rng bi
        (if dims bi = dims ai then ai
         else cv.resize ai ((dims bi).2, (dims bi).1))
        comparison_id dt region level raw = .error e) :
    ((runEvents comparison_id now st0 (process_events cv rng read persistOk
        comparison_id before_path after_path dt region level raw)).jobs
        comparison_id).map (fun jb => (jb.status, jb.progress))
      = some ("failed", 0) := by
  unfold process_events
  rw [hb, ha]
  dsimp only
  rw [hc]
  by_cases hd : dims bi = dims ai
  · simp only [if_pos hd]
    cases hfin : (runEvents comparison_id now st0
        ([.upd "processing" 5 "Starting analysis...",
          .upd "processing" 10 "Reading before image...",
          .upd "processing" 15 "Reading after image...",
          .upd "processing" 25 "Starting comparison..."] ++
         progress_checkpoint_events)).jobs comparison_id with
    | none =>
      have hsome := runEvents_jobs_isSome comparison_id now
        ([.upd "processing" 5 "Starting analysis...",
          .upd "processing" 10 "Reading before image...",
          .upd "processing" 15 "Reading after image...",
          .upd "processing" 25 "Starting comparison..."] ++
         progress_checkpoint_events) st0
      rw [hfin, hj] at hsome
      simp at hsome
    | some jj =>
      show ((runEvents comparison_id now st0
          (([.upd "processing" 5 "Starting analysis...",
             .upd "processing" 10 "Reading before image...",
             .upd "processing" 15 "Reading after image...",
             .upd "processing" 25 "Starting comparison..."] ++
            progress_checkpoint_events) ++
           [.upd "failed" 0 ("Analysis failed: " ++ e)])).jobs
          comparison_id).map (fun jb => (jb.status, jb.progress))
        = some ("failed", 0)
      rw [runEvents_last_upd, hfin]
      rfl
  · simp only [if_neg hd]
    cases hfin : (runEvents comparison_id now st0
        ([.upd "processing" 5 "Starting analysis...",
          .upd "processing" 10 "Reading before image...",
          .upd "processing" 15 "Reading after image...",
          .upd "processing" 20 "Resizing images...",
          .upd "processing" 25 "Starting comparison..."] ++
         progress_checkpoint_events)).jobs comparison_id with
    | none =>
      have hsome := runEvents_jobs_isSome comparison_id now
        ([.upd "processing" 5 "Starting analysis...",
          .upd "processing" 10 "Reading before image...",
          .upd "processing" 15 "Reading after image...",
          .upd "processing" 20 "Resizing images...",
          .upd "processing" 25 "Starting comparison..."] ++
         progress_checkpoint_events) st0
      rw [hfin, hj] at hsome
      simp at hsome
    | some jj =>
      show ((runEvents comparison_id now st0
          (([.upd "processing" 5 "Starting analysis...",
             .upd "processing" 10 "Reading before image...",
             .upd "processing" 15 "Reading after image...",
             .upd "processing" 20 "Resizing images...",
             .upd "processing" 25 "Starting comparison..."] ++
            progress_checkpoint_events) ++
           [.upd "failed" 0 ("Analysis failed: " ++ e)])).jobs
          comparison_id).map (fun jb => (jb.status, jb.progress))
        = some ("failed", 0)
      rw [runEvents_last_upd, hfin]
      rfl

/-- A broken collaborator: Canny edge detection raises, so the building
classifier fails internally while everything else works. -/
def cvErr : CV := { cvT with canny := fun _ => .error "canny failure" }

/-- Initial state for the C9 counterexample. -/
def st0C9 : OrchState :=
  { jobs := create_job (fun _ => none) "jobC9" "t0", store := fun _ => none }

/-- Counterexample to C9 as stated: with a failing building classifier the
job ends `failed` (progress 0), not `completed` with an empty building
collection; the pipeline itself returns the classifier's error. -/
theorem classifier_error_fails_job_counterexample :
    ((runEvents "jobC9" "t1" st0C9 (process_events cvErr rngZ
        (fun _ => some imgB) true "jobC9" "b" "a" none none "standard"
        false)).jobs "jobC9").map (fun j => (j.status, j.progress))
      = some ("failed", 0) ∧
    ((runEvents "jobC9" "t1" st0C9 (process_events cvErr rngZ
        (fun _ => some imgB) true "jobC9" "b" "a" none none "standard"
        false)).jobs "jobC9").map (fun j => j.status) ≠ some "completed" ∧
    exceptOk? (compare_images cvErr rngZ imgB imgB "jobC9" none none
      "standard" false) = false := by
  refine ⟨rfl, ?_, rfl⟩
  have h1 : ((runEvents "jobC9" "t1" st0C9 (process_events cvErr rngZ
      (fun _ => some imgB) true "jobC9" "b" "a" none none "standard"
      false)).jobs "jobC9").map (fun j => j.status) = some "failed" := rfl
  rw [h1]
  simp

/-- Initial state for the C9 witness. -/
def st0C9w : OrchState :=
  { jobs := create_job (fun _ => none) "jobC9w" "t0", store := fun _ => none }

/-- Witness for the amended C9 at a concrete failing classifier. -/
theorem classifier_error_fails_job_witness :
    ((runEvents "jobC9w" "t1" st0C9w (process_events cvErr rngZ
        (fun _ => some imgB) true "jobC9w" "b" "a" none none "standard"
        false)).jobs "jobC9w").map (fun jb => (jb.status, jb.progress))
      = some ("failed", 0) :=
  classifier_error_fails_job cvErr rngZ (fun _ => some imgB) true
    "jobC9w" "b" "a" "t1" none none "standard" false st0C9w imgB imgB
    { comparison_id := "jobC9w", status := "queued", progress := 0,
      message := none, created_at := "t0", updated_at := "t0" }
    "canny failure" rfl rfl rfl rfl

/-! ## C7 — region invariants -/

/-- Contours that are non-empty and lie inside a `W × H` frame. -/
def contoursOk (W H : ℕ) (cs : List Contour) : Prop :=
  ∀ c ∈ cs, c ≠ [] ∧ ∀ p ∈ c, p.x < W ∧ p.y < H

/-- Well-formed region coordinates `[x1, y1, x2, y2]` within the frame. -/
def coordsIn (W H : ℕ) (coords : List ℕ) : Prop :=
  ∃ x1 y1 x2 y2, coords = [x1, y1, x2, y2] ∧
    x1 < x2 ∧ x2 ≤ W ∧ y1 < y2 ∧ y2 ≤ H

/-- A confidence within the unit interval. -/
def confIn01 (q : ℚ) : Prop := 0 ≤ q ∧ q ≤ 1

/-- The C7 invariant for generic regions. -/
def goodDamaged (W H : ℕ) (a : DamagedArea) : Prop :=
  coordsIn W H a.coordinates ∧ 100 ≤ a.area ∧ confIn01 a.confidence

/-- The C7 invariant for building regions (no area field exists). -/
def goodBuilding (W H : ℕ) (b : BuildingInfo) : Prop :=
  coordsIn W H b.coordinates ∧ confIn01 b.confidence

/-- The C7 invariant for road regions (no area field exists). -/
def goodRoad (W H : ℕ) (r : RoadInfo) : Prop :=
  coordsIn W H r.coordinates ∧ confIn01 r.confidence

/-- The C7 invariant for flood regions. -/
def goodFlood (W H : ℕ) (f : FloodInfo) : Prop :=
  coordsIn W H f.coordinates ∧ 500 ≤ f.area ∧ confIn01 f.confidence

/-- The C7 invariant for vegetation regions: the area field is the string
rendering of a positive quantity. -/
def goodVeg (W H : ℕ) (v : VegInfo) : Prop :=
  coordsIn W H v.coordinates ∧ confIn01 v.confidence ∧
  ∃ q, 0 < q ∧ v.area = fmtSqm q

theorem foldl_min_le (l : List ℕ) : ∀ a : ℕ, l.foldl min a ≤ a := by
  induction l with
  | nil => intro a; exact le_refl a
  | cons x xs ih =>
    intro a
    exact le_trans (ih (min a x)) (min_le_left a x)

theorem le_foldl_max (l : List ℕ) : ∀ a : ℕ, a ≤ l.foldl max a := by
  induction l with
  | nil => intro a; exact le_refl a
  | cons x xs ih =>
    intro a
    exact le_trans (le_max_left a x) (ih (max a x))

theorem foldl_max_lt (l : List ℕ) (W : ℕ) :
    ∀ a : ℕ, (∀ x ∈ l, x < W) → a < W → l.foldl max a < W := by
  induction l with
  | nil => intro a _ ha; exact ha
  | cons x xs ih =>
    intro a hl ha
    exact ih (max a x) (fun y hy => hl y (List.mem_cons_of_mem x hy))
      (max_lt ha (hl x (List.mem_cons_self x xs)))

/-- Bounding boxes of non-empty in-frame contours are non-degenerate and
lie inside the frame. -/
theorem boundingRect_bounds (c : Contour) (W H : ℕ) (hne : c ≠ [])
    (hc : ∀ p ∈ c, p.x < W ∧ p.y < H) :
    (boundingRect c).1 < (boundingRect c).1 + (boundingRect c).2.2.1 ∧
    (boundingRect c).1 + (boundingRect c).2.2.1 ≤ W ∧
    (boundingRect c).2.1 < (boundingRect c).2.1 + (boundingRect c).2.2.2 ∧
    (boundingRect c).2.1 + (boundingRect c).2.2.2 ≤ H := by
  cases c with
  | nil => exact absurd rfl hne
  | cons p ps =>
    have hx : ∀ x ∈ ((p :: ps).map Pt.x), x < W := by
      intro x hx
      obtain ⟨q, hq, rfl⟩ := List.mem_map.mp hx
      exact (hc q hq).1
    have hy : ∀ y ∈ ((p :: ps).map Pt.y), y < H := by
      intro y hy
      obtain ⟨q, hq, rfl⟩ := List.mem_map.mp hy
      exact (hc q hq).2
    have hpx : p.x < W := (hc p (List.mem_cons_self p ps)).1
    have hpy : p.y < H := (hc p (List.mem_cons_self p ps)).2
    have h1 : ((p :: ps).map Pt.x).foldl min p.x ≤ p.x := foldl_min_le _ _
    have h2 : p.x ≤ ((p :: ps).map Pt.x).foldl max p.x := le_foldl_max _ _
    have h3 : ((p :: ps).map Pt.x).foldl max p.x < W := foldl_max_lt _ W _ hx hpx
    have h4 : ((p :: ps).map Pt.y).foldl min p.y ≤ p.y := foldl_min_le _ _
    have h5 : p.y ≤ ((p :: ps).map Pt.y).foldl max p.y := le_foldl_max _ _
    have h6 : ((p :: ps).map Pt.y).foldl max p.y < H := foldl_max_lt _ H _ hy hpy
    simp only [boundingRect]
    refine ⟨?_, ?_, ?_, ?_⟩ <;> omega

/-- Rounding to two decimals keeps a value of `[0, 0.99]` inside `[0, 1]`. -/
theorem roundTo_two_bounds (q : ℚ) (h0 : 0 ≤ q) (h1 : q ≤ 99 / 100) :
    0 ≤ roundTo 2 q ∧ roundTo 2 q ≤ 1 := by
  unfold roundTo
  have hp : ((10 : ℚ) ^ (2 : ℕ)) = 100 := by norm_num
  rw [hp]
  constructor
  · apply div_nonneg _ (by norm_num)
    have hfl : (0 : ℤ) ≤ ⌊q * 100 + 1 / 2⌋ := by
      apply Int.floor_nonneg.mpr
      linarith
    exact_mod_cast hfl
  · rw [div_le_iff₀ (by norm_num : (0:ℚ) < 100)]
    have hlt : ⌊q * 100 + 1 / 2⌋ < (100 : ℤ) := by
      rw [Int.floor_lt]
      push_cast
      linarith
    have hle : ⌊q * 100 + 1 / 2⌋ ≤ (99 : ℤ) := by omega
    have hcst : ((⌊q * 100 + 1 / 2⌋ : ℤ) : ℚ) ≤ 99 := by exact_mod_cast hle
    linarith

/-- `random.uniform(a, b)` stays in `[a, b]` for unit-interval samples. -/
theorem uniform_mem (r : Rng) (hr : ∀ n, 0 ≤ r.sample n ∧ r.sample n ≤ 1)
    (a b : ℚ) (hab : a ≤ b) (n : ℕ) :
    a ≤ r.uniform a b n ∧ r.uniform a b n ≤ b := by
  obtain ⟨h0, h1⟩ := hr n
  unfold Rng.uniform
  constructor <;> nlinarith

/-- Splitting a successful bind into its two successful stages. -/
theorem bind_ok_cases {α β : Type _} {u : Except String α}
    {k : α → Except String β} {out : β}
    (h : (u >>= k) = .ok out) : ∃ x, u = .ok x ∧ k x = .ok out := by
  cases u with
  | error e => simp [Bind.bind, Except.bind] at h
  | ok x => exact ⟨x, rfl, by simpa [Bind.bind, Except.bind] using h⟩

theorem foldl_inv_pair {β X : Type _} (P : X → Prop)
    (f : List X × ℕ → β → List X × ℕ) :
    ∀ (l : List β),
      (∀ acc x, x ∈ l → (∀ y ∈ acc.1, P y) → ∀ y ∈ (f acc x).1, P y) →
      ∀ (acc : List X × ℕ),
        (∀ y ∈ acc.1, P y) → ∀ y ∈ (l.foldl f acc).1, P y := by
  intro l
  induction l with
  | nil => intro _ acc hacc; exact hacc
  | cons x xs ih =>
    intro h acc hacc
    exact ih (fun a z hz => h a z (List.mem_cons_of_mem x hz)) _
      (h acc x (List.mem_cons_self x xs) hacc)

theorem foldlM_inv_pair {β X : Type _} (P : X → Prop)
    (f : List X × ℕ → β → Except String (List X × ℕ)) :
    ∀ (l : List β),
      (∀ acc x res, x ∈ l → (∀ y ∈ acc.1, P y) → f acc x = .ok res →
        ∀ y ∈ res.1, P y) →
      ∀ (acc res : List X × ℕ),
        (∀ y ∈ acc.1, P y) → l.foldlM f acc = .ok res → ∀ y ∈ res.1, P y := by
  intro l
  induction l with
  | nil =>
    intro _ acc res hacc hfold
    simp only [List.foldlM_nil, pure, Except.pure, Except.ok.injEq] at hfold
    exact hfold ▸ hacc
  | cons x xs ih =>
    intro h acc res hacc hfold
    simp only [List.foldlM_cons] at hfold
    cases hfa : f acc x with
    | error e => rw [hfa] at hfold; simp [Bind.bind, Except.bind] at hfold
    | ok a2 =>
      rw [hfa] at hfold
      simp only [Bind.bind, Except.bind] at hfold
      exact ih (fun a z r hz => h a z r (List.mem_cons_of_mem x hz)) a2 res
        (h acc x a2 (List.mem_cons_self x xs) hacc hfa) hfold

theorem foldlM_inv_list {β X : Type _} (P : X → Prop)
    (f : List X → β → Except String (List X)) :
    ∀ (l : List β),
      (∀ acc x res, x ∈ l → (∀ y ∈ acc, P y) → f acc x = .ok res →
        ∀ y ∈ res, P y) →
      ∀ (acc res : List X),
        (∀ y ∈ acc, P y) → l.foldlM f acc = .ok res → ∀ y ∈ res, P y := by
  intro l
  induction l with
  | nil =>
    intro _ acc res hacc hfold
    simp only [List.foldlM_nil, pure, Except.pure, Except.ok.injEq] at hfold
    exact hfold ▸ hacc
  | cons x xs ih =>
    intro h acc res hacc hfold
    simp only [List.foldlM_cons] at hfold
    cases hfa : f acc x with
    | error e => rw [hfa] at hfold; simp [Bind.bind, Except.bind] at hfold
    | ok a2 =>
      rw [hfa] at hfold
      simp only [Bind.bind, Except.bind] at hfold
      exact ih (fun a z r hz => h a z r (List.mem_cons_of_mem x hz)) a2 res
        (h acc x a2 (List.mem_cons_self x xs) hacc hfa) hfold

/-- Members of an enumerated list are members of the list. -/
theorem snd_mem_of_mem_enumFrom {α : Type _} :
    ∀ (l : List α) (n : ℕ) (p : ℕ × α), p ∈ l.enumFrom n → p.2 ∈ l := by
  intro l
  induction l with
  | nil => intro n p hp; simp [List.enumFrom] at hp
  | cons x xs ih =>
    intro n p hp
    simp only [List.enumFrom, List.mem_cons] at hp
    cases hp with
    | inl h => rw [h]; exact List.mem_cons_self x xs
    | inr h => exact List.mem_cons_of_mem x (ih (n + 1) p h)

theorem snd_mem_of_mem_enum {α : Type _} (l : List α) (p : ℕ × α)
    (hp : p ∈ l.enum) : p.2 ∈ l :=
  snd_mem_of_mem_enumFrom l 0 p hp

theorem analyze_loop_inv (cv : CV) (bi ai : Img) (dt : Option String)
    (contours : List Contour) (W H : ℕ)
    (hcont : contoursOk W H contours) :
    ∀ res, analyze_loop cv bi ai dt contours = .ok res →
      ∀ a ∈ res, goodDamaged W H a := by
  intro res hres
  unfold analyze_loop at hres
  refine foldlM_inv_list (goodDamaged W H) _ contours.enum ?_ [] res (by simp) hres
  intro acc x out hx hacc hstep
  dsimp only at hstep
  split at hstep
  · simp only [pure, Except.pure, Except.ok.injEq] at hstep
    subst hstep
    exact hacc
  · rename_i harea
    obtain ⟨dtv, _, hk⟩ := bind_ok_cases hstep
    simp only [pure, Except.pure, Except.ok.injEq] at hk
    subst hk
    intro a ha
    rcases List.mem_append.mp ha with ha | ha
    · exact hacc a ha
    · simp only [List.mem_singleton] at ha
      subst ha
      have hmem := snd_mem_of_mem_enum contours x hx
      obtain ⟨hne, hball⟩ := hcont x.2 hmem
      have hbr := boundingRect_bounds x.2 W H hne hball
      have harea2 : (100 : ℚ) ≤ cv.contourArea x.2 := le_of_not_lt harea
      refine ⟨⟨_, _, _, _, rfl, hbr.1, hbr.2.1, hbr.2.2.1, hbr.2.2.2⟩, harea2, ?_⟩
      apply roundTo_two_bounds
      · refine le_min ?_ (by norm_num)
        have hge : (0 : ℚ) ≤ cv.contourArea x.2 / 10000 := by linarith
        linarith
      · calc min (0.9 + cv.contourArea x.2 / 10000) 0.99 ≤ 0.99 := min_le_right _ _
          _ ≤ 99 / 100 := by norm_num

theorem analyze_inv (cv : CV) (contours : List Contour) (bi ai : Img)
    (dt : Option String) (level : String) (W H : ℕ)
    (hcont : contoursOk W H contours) :
    ∀ res, analyze_damaged_areas cv contours bi ai dt level = .ok res →
      ∀ a ∈ res, goodDamaged W H a := by
  intro res hres
  unfold analyze_damaged_areas at hres
  obtain ⟨d, hd, hk⟩ := bind_ok_cases hres
  simp only [pure, Except.pure, Except.ok.injEq] at hk
  subst hk
  intro a ha
  split at ha
  · obtain ⟨a0, ha0, rfl⟩ := List.mem_map.mp ha
    have hg := analyze_loop_inv cv bi ai dt contours W H hcont d hd a0 ha0
    obtain ⟨hc1, hc2, hc3⟩ := hg
    exact ⟨hc1, hc2, hc3⟩
  · exact analyze_loop_inv cv bi ai dt contours W H hcont d hd a ha

theorem detect_building_inv (cv : CV) (bi ai : Img) (contours : List Contour)
    (level : String) (rng : Rng) (n0 W H : ℕ)
    (hrng : ∀ n, 0 ≤ rng.sample n ∧ rng.sample n ≤ 1)
    (hfc : ∀ m cs, cv.findContours m = .ok cs → contoursOk W H cs) :
    ∀ res, detect_building_damage cv bi ai contours level rng n0 = .ok res →
      ∀ b ∈ res.1, goodBuilding W H b := by
  intro res hres
  unfold detect_building_damage at hres
  obtain ⟨e1, _, hres⟩ := bind_ok_cases hres
  obtain ⟨e2, _, hres⟩ := bind_ok_cases hres
  obtain ⟨bcs, hbcs, hres⟩ := bind_ok_cases hres
  simp only [pure, Except.pure, Except.ok.injEq] at hres
  subst hres
  have hok := hfc _ _ hbcs
  refine foldl_inv_pair (goodBuilding W H) _ bcs.enum ?_ ([], n0) (by simp)
  intro acc x hx hacc
  unfold building_step
  dsimp only
  have hcore : coordsIn W H [(boundingRect x.2).1, (boundingRect x.2).2.1,
      (boundingRect x.2).1 + (boundingRect x.2).2.2.1,
      (boundingRect x.2).2.1 + (boundingRect x.2).2.2.2] ∧
      confIn01 (roundTo 2 (rng.uniform 0.75 0.95 acc.2)) := by
    have hmem := snd_mem_of_mem_enum bcs x hx
    obtain ⟨hne, hball⟩ := hok x.2 hmem
    have hbr := boundingRect_bounds x.2 W H hne hball
    have hu := uniform_mem rng hrng 0.75 0.95 (by norm_num) acc.2
    refine ⟨⟨_, _, _, _, rfl, hbr.1, hbr.2.1, hbr.2.2.1, hbr.2.2.2⟩, ?_⟩
    apply roundTo_two_bounds
    · linarith [hu.1]
    · linarith [hu.2]
  by_cases h1 : cv.contourArea x.2 < 500
  · simp only [if_pos h1]
    exact hacc
  · simp only [if_neg h1]
    by_cases h2 : 4 ≤ cv.approxVertices x.2 ∧ cv.approxVertices x.2 ≤ 8
    · simp only [if_pos h2]
      by_cases h3 : contours.any (fun dc =>
          bboxOverlapB (boundingRect x.2).1 (boundingRect x.2).2.1
            (boundingRect x.2).2.2.1 (boundingRect x.2).2.2.2
            (boundingRect dc).1 (boundingRect dc).2.1
            (boundingRect dc).2.2.1 (boundingRect dc).2.2.2) = true
      · simp only [if_pos h3]
        by_cases h4 : level = "detailed"
        · simp only [if_pos h4]
          intro y hy
          rcases List.mem_append.mp hy with hy | hy
          · exact hacc y hy
          · simp only [List.mem_singleton] at hy
            subst hy
            exact hcore
        · simp only [if_neg h4]
          intro y hy
          rcases List.mem_append.mp hy with hy | hy
          · exact hacc y hy
          · simp only [List.mem_singleton] at hy
            subst hy
            exact hcore
      · simp only [if_neg h3]
        exact hacc
    · simp only [if_neg h2]
      exact hacc

theorem detect_road_inv (cv : CV) (bi ai : Img) (contours : List Contour)
    (level : String) (rng : Rng) (n0 W H : ℕ)
    (hrng : ∀ n, 0 ≤ rng.sample n ∧ rng.sample n ≤ 1)
    (hfc : ∀ m cs, cv.findContours m = .ok cs → contoursOk W H cs) :
    ∀ res, detect_road_damage cv bi ai contours level rng n0 = .ok res →
      ∀ r ∈ res.1, goodRoad W H r := by
  intro res hres
  unfold detect_road_damage at hres
  obtain ⟨hsvb, _, hres⟩ := bind_ok_cases hres
  obtain ⟨m1, _, hres⟩ := bind_ok_cases hres
  obtain ⟨m2, _, hres⟩ := bind_ok_cases hres
  obtain ⟨rcs, hrcs, hres⟩ := bind_ok_cases hres
  have hok := hfc _ _ hrcs
  refine foldlM_inv_pair (goodRoad W H) _ rcs.enum ?_ ([], n0) res (by simp) hres
  intro acc x out hx hacc hstep
  unfold road_step at hstep
  dsimp only at hstep
  split at hstep
  · simp only [pure, Except.pure, Except.ok.injEq] at hstep
    subst hstep
    exact hacc
  · rename_i harea
    have hmem := snd_mem_of_mem_enum rcs x hx
    obtain ⟨hne, hball⟩ := hok x.2 hmem
    have hbr := boundingRect_bounds x.2 W H hne hball
    rcases hbx : boundingRect x.2 with ⟨rx, ry, rw0, rh0⟩
    simp only [hbx] at hbr hstep
    refine foldlM_inv_pair (goodRoad W H) _ contours ?_ acc out hacc hstep
    intro acc2 dc out2 hdc hacc2 hstep2
    unfold road_inner at hstep2
    dsimp only at hstep2
    rcases hbd : boundingRect dc with ⟨dx0, dy0, dw0, dh0⟩
    simp only [hbd] at hstep2
    split at hstep2
    · split at hstep2
      · simp only [pure, Except.pure, Except.ok.injEq] at hstep2
        subst hstep2
        exact hacc2
      · rename_i hpos
        obtain ⟨sev, _, hk⟩ := bind_ok_cases hstep2
        simp only [pure, Except.pure, Except.ok.injEq] at hk
        subst hk
        push_neg at hpos
        intro y hy
        rcases List.mem_append.mp hy with hy | hy
        · exact hacc2 y hy
        · simp only [List.mem_singleton] at hy
          subst hy
          obtain ⟨how, hoh⟩ := hpos
          have hu := uniform_mem rng hrng 0.8 0.95 (by norm_num) acc2.2
          have hwle : rx + rw0 ≤ W := hbr.2.1
          have hhle : ry + rh0 ≤ H := hbr.2.2.2
          by_cases h4 : level = "detailed"
          · simp only [if_pos h4]
            refine ⟨⟨_, _, _, _, rfl, ?_, ?_, ?_, ?_⟩, ?_⟩
            · omega
            · omega
            · omega
            · omega
            · apply roundTo_two_bounds
              · linarith [hu.1]
              · linarith [hu.2]
          · simp only [if_neg h4]
            refine ⟨⟨_, _, _, _, rfl, ?_, ?_, ?_, ?_⟩, ?_⟩
            · omega
            · omega
            · omega
            · omega
            · apply roundTo_two_bounds
              · linarith [hu.1]
              · linarith [hu.2]
    · simp only [pure, Except.pure, Except.ok.injEq] at hstep2
      subst hstep2
      exact hacc2

theorem detect_flood_inv (cv : CV) (bi ai : Img) (level : String) (rng : Rng)
    (n0 W H : ℕ)
    (hrng : ∀ n, 0 ≤ rng.sample n ∧ rng.sample n ≤ 1)
    (hfc : ∀ m cs, cv.findContours m = .ok cs → contoursOk W H cs) :
    ∀ res, detect_flooded_areas cv bi ai level rng n0 = .ok res →
      ∀ f ∈ res.1, goodFlood W H f := by
  intro res hres
  unfold detect_flooded_areas at hres
  obtain ⟨hsvb, _, hres⟩ := bind_ok_cases hres
  obtain ⟨hsva, _, hres⟩ := bind_ok_cases hres
  obtain ⟨m1, _, hres⟩ := bind_ok_cases hres
  obtain ⟨m2, _, hres⟩ := bind_ok_cases hres
  obtain ⟨fcs, hfcs, hres⟩ := bind_ok_cases hres
  simp only [pure, Except.pure, Except.ok.injEq] at hres
  subst hres
  have hok := hfc _ _ hfcs
  refine foldl_inv_pair (goodFlood W H) _ fcs.enum ?_ ([], n0) (by simp)
  intro acc x hx hacc
  unfold flood_step
  dsimp only
  have hgoods : ¬ cv.contourArea x.2 < 500 → goodFlood W H
      { id := x.1 + 1,
        coordinates := [(boundingRect x.2).1, (boundingRect x.2).2.1,
          (boundingRect x.2).1 + (boundingRect x.2).2.2.1,
          (boundingRect x.2).2.1 + (boundingRect x.2).2.2.2],
        water_depth := estimate_water_depth (crop ai (boundingRect x.2).1
          (boundingRect x.2).2.1 (boundingRect x.2).2.2.1 (boundingRect x.2).2.2.2),
        area := cv.contourArea x.2,
        confidence := roundTo 2 (rng.uniform 0.85 0.98 acc.2) } := by
    intro harea
    have hmem := snd_mem_of_mem_enum fcs x hx
    obtain ⟨hne, hball⟩ := hok x.2 hmem
    have hbr := boundingRect_bounds x.2 W H hne hball
    have hu := uniform_mem rng hrng 0.85 0.98 (by norm_num) acc.2
    refine ⟨⟨_, _, _, _, rfl, hbr.1, hbr.2.1, hbr.2.2.1, hbr.2.2.2⟩,
      le_of_not_lt harea, ?_⟩
    apply roundTo_two_bounds
    · linarith [hu.1]
    · have : rng.uniform 0.85 0.98 acc.2 ≤ 0.98 := hu.2
      linarith
  split_ifs with h1 h2
  · exact hacc
  · intro y hy
    rcases List.mem_append.mp hy with hy | hy
    · exact hacc y hy
    · simp only [List.mem_singleton] at hy
      subst hy
      exact hgoods h1
  · intro y hy
    rcases List.mem_append.mp hy with hy | hy
    · exact hacc y hy
    · simp only [List.mem_singleton] at hy
      subst hy
      exact hgoods h1

theorem detect_veg_inv (cv : CV) (bi ai : Img) (level : String) (rng : Rng)
    (n0 W H : ℕ)
    (hrng : ∀ n, 0 ≤ rng.sample n ∧ rng.sample n ≤ 1)
    (hfc : ∀ m cs, cv.findContours m = .ok cs → contoursOk W H cs) :
    ∀ res, detect_vegetation_loss cv bi ai level rng n0 = .ok res →
      ∀ v ∈ res.1, goodVeg W H v := by
  intro res hres
  unfold detect_vegetation_loss at hres
  obtain ⟨hsvb, _, hres⟩ := bind_ok_cases hres
  obtain ⟨hsva, _, hres⟩ := bind_ok_cases hres
  obtain ⟨m1, _, hres⟩ := bind_ok_cases hres
  obtain ⟨m2, _, hres⟩ := bind_ok_cases hres
  obtain ⟨vcs, hvcs, hres⟩ := bind_ok_cases hres
  simp only [pure, Except.pure, Except.ok.injEq] at hres
  subst hres
  have hok := hfc _ _ hvcs
  refine foldl_inv_pair (goodVeg W H) _ vcs.enum ?_ ([], n0) (by simp)
  intro acc x hx hacc
  unfold veg_step
  dsimp only
  have hcore : ¬ cv.contourArea x.2 < 500 →
      coordsIn W H [(boundingRect x.2).1, (boundingRect x.2).2.1,
        (boundingRect x.2).1 + (boundingRect x.2).2.2.1,
        (boundingRect x.2).2.1 + (boundingRect x.2).2.2.2] ∧
      confIn01 (roundTo 2 (rng.uniform 0.8 0.95 acc.2)) ∧
      ∃ q, 0 < q ∧ fmtSqm (cv.contourArea x.2 * 0.25) = fmtSqm q := by
    intro harea
    have hmem := snd_mem_of_mem_enum vcs x hx
    obtain ⟨hne, hball⟩ := hok x.2 hmem
    have hbr := boundingRect_bounds x.2 W H hne hball
    have hu := uniform_mem rng hrng 0.8 0.95 (by norm_num) acc.2
    have harea2 : (500 : ℚ) ≤ cv.contourArea x.2 := le_of_not_lt harea
    refine ⟨⟨_, _, _, _, rfl, hbr.1, hbr.2.1, hbr.2.2.1, hbr.2.2.2⟩, ?_, ?_⟩
    · apply roundTo_two_bounds
      · linarith [hu.1]
      · linarith [hu.2]
    · exact ⟨cv.contourArea x.2 * 0.25, by linarith, rfl⟩
  by_cases h1 : cv.contourArea x.2 < 500
  · simp only [if_pos h1]
    exact hacc
  · simp only [if_neg h1]
    by_cases h2 : level = "detailed"
    · simp only [if_pos h2]
      intro y hy
      rcases List.mem_append.mp hy with hy | hy
      · exact hacc y hy
      · simp only [List.mem_singleton] at hy
        subst hy
        exact hcore h1
    · simp only [if_neg h2]
      intro y hy
      rcases List.mem_append.mp hy with hy | hy
      · exact hacc y hy
      · simp only [List.mem_singleton] at hy
        subst hy
        exact hcore h1

/-- **C7** (amended): every region record produced by any of the five
detectors has bounding-box coordinates `[x1, y1, x2, y2]` lying inside the
input frame with `x1 < x2` and `y1 < y2`, and a confidence in `[0, 1]`;
where a numeric area field exists it is positive (generic regions carry
`area ≥ 100`, flood regions `area ≥ 500`), while building and road records
have no area field at all and the vegetation record's `area` is the
formatted string of a positive square-meter quantity.  The hypotheses say
that the unit random stream is in `[0, 1]`, that the damage contours passed
in lie inside the `W × H` frame, and that every contour the collaborator
extracts lies inside the frame. -/
theorem detector_region_invariants (cv : CV) (bi ai : Img)
    (contours : List Contour) (dt : Option String) (level : String)
    (rng : Rng) (n0 W H : ℕ)
    (hrng : ∀ n, 0 ≤ rng.sample n ∧ rng.sample n ≤ 1)
    (hcont : contoursOk W H contours)
    (hfc : ∀ m cs, cv.findContours m = .ok cs → contoursOk W H cs) :
    (∀ res, analyze_damaged_areas cv contours bi ai dt level = .ok res →
      ∀ a ∈ res, goodDamaged W H a) ∧
    (∀ res, detect_building_damage cv bi ai contours level rng n0 = .ok res →
      ∀ b ∈ res.1, goodBuilding W H b) ∧
    (∀ res, detect_road_damage cv bi ai contours level rng n0 = .ok res →
      ∀ r ∈ res.1, goodRoad W H r) ∧
    (∀ res, detect_flooded_areas cv bi ai level rng n0 = .ok res →
      ∀ f ∈ res.1, goodFlood W H f) ∧
    (∀ res, detect_vegetation_loss cv bi ai level rng n0 = .ok res →
      ∀ v ∈ res.1, goodVeg W H v) :=
  ⟨analyze_inv cv contours bi ai dt level W H hcont,
   detect_building_inv cv bi ai contours level rng n0 W H hrng hfc,
   detect_road_inv cv bi ai contours level rng n0 W H hrng hfc,
   detect_flood_inv cv bi ai level rng n0 W H hrng hfc,
   detect_veg_inv cv bi ai level rng n0 W H hrng hfc⟩

/-- A 2×2 before image that is vegetation-colored everywhere under the
HSV-as-identity collaborator (hue 50 in `[30, 90]`, saturation and value
100 in `[40, 255]`). -/
def imgV : Img := [[(50, 100, 100), (50, 100, 100)],
                   [(50, 100, 100), (50, 100, 100)]]

/-- Counterexample to C7 as stated: on this input the vegetation detector
does produce a region, but the region's `area` field is the
already-formatted display string `"250.0 sqm"` (the source's
`f"{area_sqm:.1f} sqm"`), not a number — so the produced record carries no
numeric area on which the claimed `area > 0` could be read. -/
theorem region_numeric_area_counterexample :
    (detect_vegetation_loss cvT imgV imgB "standard" rngZ 0).map
        (fun p => p.1.map (fun v => v.area))
      = .ok [fmtSqm ((1000 : ℚ) * 0.25)] ∧
    fmtSqm ((1000 : ℚ) * 0.25) = "250.0 sqm" := by
  constructor
  · rfl
  · have h : ((1000 : ℚ) * 0.25) = 250 := by norm_num
    rw [h]
    have hfl : ⌊(250 : ℚ) * 10 + 1 / 2⌋ = 2500 := by
      rw [Int.floor_eq_iff]
      norm_num
    unfold fmtSqm
    rw [hfl]
    rfl

/-- Closed instantiation of the C7 theorem: the trivial collaborator on the
vegetation-loss input, frame 2×2, with every hypothesis discharged. -/
theorem detector_region_invariants_witness :
    (∀ res, analyze_damaged_areas cvT [[⟨0, 0⟩, ⟨1, 1⟩]] imgV imgB none
        "standard" = .ok res → ∀ a ∈ res, goodDamaged 2 2 a) ∧
    (∀ res, detect_building_damage cvT imgV imgB [[⟨0, 0⟩, ⟨1, 1⟩]]
        "standard" rngZ 0 = .ok res → ∀ b ∈ res.1, goodBuilding 2 2 b) ∧
    (∀ res, detect_road_damage cvT imgV imgB [[⟨0, 0⟩, ⟨1, 1⟩]]
        "standard" rngZ 0 = .ok res → ∀ r ∈ res.1, goodRoad 2 2 r) ∧
    (∀ res, detect_flooded_areas cvT imgV imgB "standard" rngZ 0 = .ok res →
      ∀ f ∈ res.1, goodFlood 2 2 f) ∧
    (∀ res, detect_vegetation_loss cvT imgV imgB "standard" rngZ 0 = .ok res →
      ∀ v ∈ res.1, goodVeg 2 2 v) :=
  detector_region_invariants cvT imgV imgB [[⟨0, 0⟩, ⟨1, 1⟩]] none "standard"
    rngZ 0 2 2
    (fun _ => ⟨by norm_num [rngZ], by norm_num [rngZ]⟩)
    (by unfold contoursOk; decide)
    (by
      intro m cs h
      simp only [cvT] at h
      have hcs : (if maskAny m then [[(⟨0, 0⟩ : Pt), ⟨1, 1⟩]] else []) = cs := by
        injection h
      subst hcs
      split
      · unfold contoursOk; decide
      · unfold contoursOk; decide)

/-- A concrete registered job for the C10 witness. -/
def jobA : AnalysisJob :=
  { comparison_id := "a", status := "queued", progress := 0, message := none,
    created_at := "t0", updated_at := "t0" }

/-- A concrete one-entry registry for the C10 witness. -/
def regA : Registry := fun k => if k = "a" then some jobA else none

/-- Witness for C10 at a concrete registry: a foreign key is untouched, the
updated entry keeps its id and `created_at`, and an unknown id leaves the
registry unchanged. -/
theorem update_job_status_frame_witness :
    update_job_status regA "a" "processing" 5 (some "m") "t1" "b" = regA "b" ∧
    update_job_status regA "a" "processing" 5 (some "m") "t1" "a"
      = some { jobA with status := "processing", progress := 5,
                         message := some "m", updated_at := "t1" } ∧
    update_job_status regA "missing" "processing" 5 none "t1" = regA := by
  refine ⟨?_, ?_, ?_⟩
  · exact ((update_job_status_frame regA "a" "processing" 5 (some "m") "t1").2
      jobA rfl).2 "b" (by decide)
  · exact ((update_job_status_frame regA "a" "processing" 5 (some "m") "t1").2
      jobA rfl).1
  · exact (update_job_status_frame regA "missing" "processing" 5 none "t1").1 rfl

end DisasterAssessment
